import Mathlib

/-!
# Fal-image: generation orchestration core

A shallow embedding of `src/app.js` (the capability registry `FAL_MODEL_CONFIG`,
`validateModelParameters`, `constructFalPayload`, and the submit and poll driver of
`POST /api/generate` and `POST /api/generate/bulk`), followed by theorems about it.

## Modelling conventions

* A request field is an `Option`: `none` is JavaScript `undefined` (the field is absent).
  Text fields are `String`, `seed` and `num_images` are integers, `imageUrls` is a list
  of strings, flags are `Bool`.
* The model identifier is a string. A request body may carry another JSON value in its
  place; an array such as `['flux-2-pro']` reads the table entry of its only element but
  is not strictly equal to that string, so the tests `model === 'flux-2-pro'` fail for
  it. Such identifiers are outside this embedding: every theorem speaks of string
  identifiers.
* The source tests presence with JavaScript truthiness (`if (params.seed)`); the
  functions `truthyStr`, `truthyInt`, `truthyList` compute it: the empty string and the
  number zero are falsy, every array (also the empty one) is truthy.
* A property read `table[key]` on an object literal also finds the members the literal
  inherits from `Object.prototype`; `jsGet` models the three outcomes of such a read.
* A read of a property of `undefined` throws a `TypeError`; functions that can throw
  return `Except JsError _`.
* The upstream service is a pair of functions that give the outcome of each `fetch`: a
  rejection, or a response with its status and the outcome of reading its body. An
  element of the `images` list of a status body is an image object or a falsy value
  such as `null`.
-/

namespace FalImage

/-! ## JavaScript values and property reads -/

/-- Error values thrown by the embedded code. -/
inductive JsError where
  /-- A `TypeError` raised by reading property `prop` of `undefined`. -/
  | typeError (prop : String)
  /-- An `Error` made with `new Error(message)`, or a rejection of `fetch`. -/
  | error (message : String)
  deriving DecidableEq, Repr

/-- The `message` property of a thrown error (V8 wording for the `TypeError`). -/
def JsError.message : JsError → String
  | .typeError prop => "Cannot read properties of undefined (reading \x27" ++ prop ++ "\x27)"
  | .error message => message

/-- Equality of results of a throwing computation is decidable. -/
instance instDecidableEqExcept {ε α : Type} [DecidableEq ε] [DecidableEq α] :
    DecidableEq (Except ε α)
  | .ok a, .ok b =>
    if h : a = b then isTrue (by rw [h]) else isFalse (fun hab => h (Except.ok.inj hab))
  | .error a, .error b =>
    if h : a = b then isTrue (by rw [h]) else isFalse (fun hab => h (Except.error.inj hab))
  | .ok _, .error _ => isFalse (fun hab => Except.noConfusion hab)
  | .error _, .ok _ => isFalse (fun hab => Except.noConfusion hab)

/-- Result of the property read `table[key]` on an object literal. -/
inductive Lookup (α : Type) where
  /-- The key is an own property of the literal. -/
  | own (value : α)
  /-- The key names a member inherited from `Object.prototype` (a function, or the
  prototype object itself for `__proto__`); the value is truthy and is not a string. -/
  | inherited (name : String)
  /-- The read yields `undefined`. -/
  | undefined
  deriving DecidableEq, Repr

/-- Property names every object literal inherits from `Object.prototype`. -/
def objectPrototypeKeys : List String :=
  ["constructor", "__defineGetter__", "__defineSetter__", "hasOwnProperty",
   "__lookupGetter__", "__lookupSetter__", "isPrototypeOf", "propertyIsEnumerable",
   "toString", "valueOf", "__proto__", "toLocaleString"]

/-- The read `table[key]`, for an object literal given by its own entries. -/
def jsGet {α : Type} (table : List (String × α)) (key : String) : Lookup α :=
  match table.lookup key with
  | some v => .own v
  | none => if objectPrototypeKeys.contains key then .inherited key else .undefined

/-- Truthiness of an optional string: absent and empty strings are falsy. -/
def truthyStr : Option String → Bool
  | some s => s != ""
  | none => false

/-- Truthiness of an optional integer: absent and zero are falsy. -/
def truthyInt : Option Int → Bool
  | some n => n != 0
  | none => false

/-- Truthiness of an optional rational number: absent and zero are falsy. -/
def truthyNum : Option Rat → Bool
  | some q => q != 0
  | none => false

/-- Truthiness of an optional array: every array is truthy, the empty one too. -/
def truthyList {α : Type} : Option (List α) → Bool
  | some _ => true
  | none => false

/-- Truthiness of an optional boolean. -/
def truthyBool : Option Bool → Bool
  | some b => b
  | none => false

/-- The string a template literal prints for an optional string. -/
def strOf : Option String → String
  | some s => s
  | none => "undefined"

/-- `Array.prototype.join` on an array of strings. -/
def join (xs : List String) (sep : String) : String :=
  sep.intercalate xs

/-! ## Capability registry -/

/-- The `supports` object of a model. Flags that only some models declare are optional. -/
structure Supports where
  aspectRatios : List String
  resolutions : List String
  safetyTolerance : Bool
  seed : Bool
  enhancePrompt : Bool
  raw : Bool
  imageToImage : Bool
  outputFormats : List String
  customSizes : Bool
  imageSize : Option Bool := none
  imageUrls : Option Bool := none
  multiImage : Option Bool := none
  deriving DecidableEq, Repr

/-- The `defaults` object of a model. -/
structure Defaults where
  aspectRatio : Option String := none
  imageSize : Option String := none
  resolution : Option String := none
  safetyTolerance : Option String := none
  outputFormat : Option String := none
  enableSafetyChecker : Option Bool := none
  numImages : Int
  deriving DecidableEq, Repr

/-- One entry of `FAL_MODEL_CONFIG`. -/
structure ModelConfig where
  submitUrl : String
  statusBaseUrl : String
  logName : String
  type : String
  supports : Supports
  defaults : Defaults
  deriving DecidableEq, Repr

/-- The model table of `src/app.js`, lines 115 to 261, as its own entries in order. -/
def FAL_MODEL_CONFIG : List (String × ModelConfig) :=
  [ ("flux-1.1-pro-ultra",
      { submitUrl := "https://queue.fal.run/fal-ai/flux-pro/v1.1-ultra"
        statusBaseUrl := "https://queue.fal.run/fal-ai/flux-pro"
        logName := "FLUX 1.1 Pro Ultra"
        type := "text-to-image"
        supports :=
          { aspectRatios := ["21:9", "16:9", "4:3", "3:2", "1:1", "2:3", "3:4", "9:16", "9:21"]
            resolutions := []
            safetyTolerance := true
            seed := true
            enhancePrompt := true
            raw := true
            imageToImage := false
            outputFormats := ["jpeg", "png"]
            customSizes := true }
        defaults :=
          { aspectRatio := some "16:9"
            safetyTolerance := some "2"
            outputFormat := some "jpeg"
            enableSafetyChecker := some true
            numImages := 1 } }),
    ("flux-2-pro",
      { submitUrl := "https://queue.fal.run/fal-ai/flux-2-pro"
        statusBaseUrl := "https://queue.fal.run/fal-ai/flux-2-pro"
        logName := "FLUX 2 Pro"
        type := "text-to-image"
        supports :=
          { aspectRatios := []
            resolutions := []
            safetyTolerance := true
            seed := true
            enhancePrompt := false
            raw := false
            imageToImage := false
            outputFormats := ["jpeg", "png"]
            customSizes := true
            imageSize := some true }
        defaults :=
          { imageSize := some "landscape_4_3"
            safetyTolerance := some "2"
            outputFormat := some "jpeg"
            enableSafetyChecker := some true
            numImages := 1 } }),
    ("imagen4-preview",
      { submitUrl := "https://queue.fal.run/fal-ai/imagen4/preview"
        statusBaseUrl := "https://queue.fal.run/fal-ai/imagen4"
        logName := "Google Imagen 4 Preview"
        type := "text-to-image"
        supports :=
          { aspectRatios := ["1:1", "16:9", "9:16", "4:3", "3:4"]
            resolutions := ["1K", "2K"]
            safetyTolerance := false
            seed := false
            enhancePrompt := false
            raw := false
            imageToImage := false
            outputFormats := ["jpeg", "png", "webp"]
            customSizes := false }
        defaults :=
          { aspectRatio := some "1:1"
            resolution := some "1K"
            outputFormat := some "png"
            numImages := 1 } }),
    ("nano-banana-pro",
      { submitUrl := "https://queue.fal.run/fal-ai/nano-banana-pro"
        statusBaseUrl := "https://queue.fal.run/fal-ai/nano-banana-pro"
        logName := "Gemini 3 Pro Image"
        type := "text-to-image"
        supports :=
          { aspectRatios := ["21:9", "16:9", "3:2", "4:3", "5:4", "1:1", "4:5", "3:4", "2:3", "9:16"]
            resolutions := ["1K", "2K", "4K"]
            safetyTolerance := false
            seed := false
            enhancePrompt := false
            raw := false
            imageToImage := false
            outputFormats := ["jpeg", "png", "webp"]
            customSizes := false }
        defaults :=
          { aspectRatio := some "1:1"
            resolution := some "1K"
            outputFormat := some "png"
            numImages := 1 } }),
    ("nano-banana-pro-edit",
      { submitUrl := "https://queue.fal.run/fal-ai/nano-banana-pro/edit"
        statusBaseUrl := "https://queue.fal.run/fal-ai/nano-banana-pro"
        logName := "Gemini 3 Pro Image Edit"
        type := "image-to-image"
        supports :=
          { aspectRatios := ["auto", "21:9", "16:9", "3:2", "4:3", "5:4", "1:1", "4:5", "3:4", "2:3", "9:16"]
            resolutions := ["1K", "2K", "4K"]
            safetyTolerance := false
            seed := false
            enhancePrompt := false
            raw := false
            imageToImage := true
            imageUrls := some true
            outputFormats := ["jpeg", "png", "webp"]
            customSizes := false
            multiImage := some true }
        defaults :=
          { aspectRatio := some "auto"
            resolution := some "1K"
            outputFormat := some "png"
            numImages := 1 } }),
    ("flux-2-pro-edit",
      { submitUrl := "https://queue.fal.run/fal-ai/flux-2-pro/edit"
        statusBaseUrl := "https://queue.fal.run/fal-ai/flux-2-pro"
        logName := "FLUX 2 Pro Edit"
        type := "image-to-image"
        supports :=
          { aspectRatios := ["auto"]
            resolutions := []
            safetyTolerance := true
            seed := true
            enhancePrompt := false
            raw := false
            imageToImage := true
            outputFormats := ["jpeg", "png"]
            imageUrls := some true
            customSizes := true }
        defaults :=
          { imageSize := some "auto"
            safetyTolerance := some "2"
            outputFormat := some "jpeg"
            enableSafetyChecker := some true
            numImages := 1 } }) ]

/-! ## Requests -/

/-- The `params` object handed to `validateModelParameters` and `constructFalPayload`;
with `model` it is also the request object of the two generation endpoints. -/
structure Params where
  model : Option String := none
  prompt : Option String := none
  aspectRatio : Option String := none
  resolution : Option String := none
  safety_tolerance : Option String := none
  seed : Option Int := none
  outputFormat : Option String := none
  num_images : Option Int := none
  image_url : Option String := none
  imageUrls : Option (List String) := none
  enhancePrompt : Option Bool := none
  raw : Option Bool := none
  imagePromptStrength : Option Rat := none
  imageSize : Option String := none
  enableSafetyChecker : Option Bool := none
  syncMode : Option Bool := none
  deriving DecidableEq, Repr

/-- The object returned by `validateModelParameters`: the unknown-model return has the
fields `valid` and `error`, every other return has `valid` and `errors`. -/
structure ValidationResult where
  valid : Bool
  error : Option String := none
  errors : Option (List String) := none
  deriving DecidableEq, Repr

/-! ## Request validator -/

/-- The fixed list `validRatios` of `validateModelParameters` (line 320). -/
def validRatios : List String := ["1:1", "16:9", "9:16", "4:3", "3:2"]

/-- The aspect-ratio check of lines 314 to 329, applied to the `errors` array. -/
def checkAspectRatio (model : String) (config : ModelConfig) (params : Params)
    (errors : List String) : List String :=
  if truthyStr params.aspectRatio then
    -- FLUX 2 Pro uses image_size parameter instead of aspect_ratio
    if model == "flux-2-pro" || model == "flux-2-pro-edit" then
      if !validRatios.contains (strOf params.aspectRatio) then
        errors ++ ["Invalid aspect ratio \"" ++ strOf params.aspectRatio ++ "\" for " ++ model
          ++ ". Supported: " ++ join validRatios ", "]
      else errors
    else if config.supports.aspectRatios.length > 0 then
      if !config.supports.aspectRatios.contains (strOf params.aspectRatio) then
        errors ++ ["Invalid aspect ratio \"" ++ strOf params.aspectRatio ++ "\" for " ++ model
          ++ ". Supported: " ++ join config.supports.aspectRatios ", "]
      else errors
    else errors
  else errors

/-- The resolution check of lines 331 to 336. -/
def checkResolution (model : String) (config : ModelConfig) (params : Params)
    (errors : List String) : List String :=
  if truthyStr params.resolution then
    if !config.supports.resolutions.contains (strOf params.resolution) then
      errors ++ ["Invalid resolution \"" ++ strOf params.resolution ++ "\" for " ++ model
        ++ ". Supported: " ++ join config.supports.resolutions ", "]
    else errors
  else errors

/-- The output-format check of lines 338 to 343. -/
def checkOutputFormat (model : String) (config : ModelConfig) (params : Params)
    (errors : List String) : List String :=
  if truthyStr params.outputFormat then
    if !config.supports.outputFormats.contains (strOf params.outputFormat) then
      errors ++ ["Invalid output format \"" ++ strOf params.outputFormat ++ "\" for " ++ model
        ++ ". Supported: " ++ join config.supports.outputFormats ", "]
    else errors
  else errors

/-- The safety-tolerance check of lines 345 to 348. -/
def checkSafetyTolerance (model : String) (config : ModelConfig) (params : Params)
    (errors : List String) : List String :=
  if truthyStr params.safety_tolerance && !config.supports.safetyTolerance then
    errors ++ ["Model " ++ model ++ " does not support safety_tolerance parameter"]
  else errors

/-- The seed check of lines 350 to 353. -/
def checkSeed (model : String) (config : ModelConfig) (params : Params)
    (errors : List String) : List String :=
  if truthyInt params.seed && !config.supports.seed then
    errors ++ ["Model " ++ model ++ " does not support seed parameter"]
  else errors

/-- The missing-source check of lines 357 to 359 (inside the image-to-image branch). -/
def checkImageUrls (model : String) (params : Params) (errors : List String) : List String :=
  if !truthyList params.imageUrls && !truthyStr params.image_url then
    errors ++ ["Model " ++ model ++ " requires image URLs"]
  else errors

/-- The multi-image check of lines 361 to 364 (inside the image-to-image branch). -/
def checkMultiImage (model : String) (config : ModelConfig) (params : Params)
    (errors : List String) : List String :=
  if truthyList params.imageUrls && decide ((params.imageUrls.getD []).length > 1)
      && !truthyBool config.supports.multiImage then
    errors ++ ["Model " ++ model ++ " does not support multiple input images"]
  else errors

/-- Lines 312 to 367 of `validateModelParameters`, for a `config` that is an own entry
of `FAL_MODEL_CONFIG`: the `errors` array is threaded through the seven checks. -/
def validateOwn (model : String) (config : ModelConfig) (params : Params) :
    ValidationResult :=
  let errors : List String := []
  let errors := checkAspectRatio model config params errors
  let errors := checkResolution model config params errors
  let errors := checkOutputFormat model config params errors
  let errors := checkSafetyTolerance model config params errors
  let errors := checkSeed model config params errors
  let errors :=
    if config.type == "image-to-image" then
      let errors := checkImageUrls model params errors
      checkMultiImage model config params errors
    else errors
  { valid := errors.length == 0, errors := some errors }

/-- Lines 312 to 367 of `validateModelParameters` when `config` is a member inherited
from `Object.prototype`: `config.supports` and `config.type` are `undefined`, so the
first read of a property of `config.supports` throws; the reads guarded by a falsy
left operand of `&&` or by a false `if` are not performed. -/
def validateInherited (model : String) (params : Params) : Except JsError ValidationResult :=
  if truthyStr params.aspectRatio then
    if model == "flux-2-pro" || model == "flux-2-pro-edit" then
      if truthyStr params.resolution then .error (.typeError "resolutions")
      else if truthyStr params.outputFormat then .error (.typeError "outputFormats")
      else if truthyStr params.safety_tolerance then .error (.typeError "safetyTolerance")
      else if truthyInt params.seed then .error (.typeError "seed")
      else
        let errors : List String :=
          if !validRatios.contains (strOf params.aspectRatio) then
            ["Invalid aspect ratio \"" ++ strOf params.aspectRatio ++ "\" for " ++ model
              ++ ". Supported: " ++ join validRatios ", "]
          else []
        .ok { valid := errors.length == 0, errors := some errors }
    else .error (.typeError "aspectRatios")
  else if truthyStr params.resolution then .error (.typeError "resolutions")
  else if truthyStr params.outputFormat then .error (.typeError "outputFormats")
  else if truthyStr params.safety_tolerance then .error (.typeError "safetyTolerance")
  else if truthyInt params.seed then .error (.typeError "seed")
  else .ok { valid := true, errors := some [] }

/-- The function `validateModelParameters(model, params)` of `src/app.js`. -/
def validateModelParameters (model : String) (params : Params) :
    Except JsError ValidationResult :=
  match jsGet FAL_MODEL_CONFIG model with
  | .undefined => .ok { valid := false, error := some ("Unsupported model: " ++ model) }
  | .own config => .ok (validateOwn model config params)
  | .inherited _ => validateInherited model params

/-! ## Payload builder -/

/-- Value of the `image_size` field of a payload: a string, or the `Object.prototype`
member that the read `aspectRatioMap[key]` produced (not a string: `JSON.stringify`
omits a function and prints the prototype object as an empty object). -/
inductive SizeValue where
  | str (s : String)
  | inherited (name : String)
  deriving DecidableEq, Repr

/-- The body sent to the upstream submit endpoint; an absent field is `none`. -/
structure Payload where
  prompt : Option String := none
  num_images : Int
  image_url : Option String := none
  image_urls : Option (List String) := none
  image_size : Option SizeValue := none
  aspect_ratio : Option String := none
  image_prompt_strength : Option Rat := none
  resolution : Option String := none
  safety_tolerance : Option String := none
  seed : Option Int := none
  enhance_prompt : Option Bool := none
  raw : Option Bool := none
  output_format : Option String := none
  enable_safety_checker : Option Bool := none
  sync_mode : Option Bool := none
  deriving DecidableEq, Repr

/-- The literal `aspectRatioMap` of the `flux-2-pro-edit` branch (lines 388 to 395). -/
def aspectRatioMapEdit : List (String × String) :=
  [("1:1", "square"), ("16:9", "landscape_16_9"), ("9:16", "portrait_16_9"),
   ("4:3", "landscape_4_3"), ("3:2", "portrait_4_3"), ("auto", "auto")]

/-- The literal `aspectRatioMap` of the `flux-2-pro` branch (lines 414 to 420). -/
def aspectRatioMap : List (String × String) :=
  [("1:1", "square"), ("16:9", "landscape_16_9"), ("9:16", "portrait_16_9"),
   ("4:3", "landscape_4_3"), ("3:2", "portrait_4_3")]

/-- The expression `table[key] || fallback` for a table of strings. -/
def lookupOr (table : List (String × String)) (key fallback : String) : SizeValue :=
  match jsGet table key with
  | .own v => if v != "" then .str v else .str fallback
  | .inherited name => .inherited name
  | .undefined => .str fallback

/-- The source-image assignment of lines 379 to 383 (image-to-image branch). -/
def setSourceImages (params : Params) (payload : Payload) : Payload :=
  if truthyStr params.image_url then { payload with image_url := params.image_url }
  else if truthyList params.imageUrls && decide ((params.imageUrls.getD []).length > 0) then
    { payload with image_urls := params.imageUrls }
  else payload

/-- The sizing of lines 385 to 404 (image-to-image branch). -/
def setEditSize (model : String) (config : ModelConfig) (params : Params)
    (payload : Payload) : Payload :=
  -- FLUX 2 Pro Edit uses image_size
  if model == "flux-2-pro-edit" then
    if truthyStr params.aspectRatio then
      { payload with
        image_size := some (lookupOr aspectRatioMapEdit (strOf params.aspectRatio) "auto") }
    else { payload with image_size := some (.str "auto") }
  else if config.supports.customSizes && truthyStr params.imageSize then
    { payload with image_size := params.imageSize.map SizeValue.str }
  else if truthyStr params.aspectRatio then
    { payload with aspect_ratio := params.aspectRatio }
  else payload

/-- The image-prompt-strength assignment of lines 406 to 408 (image-to-image branch). -/
def setImagePromptStrength (params : Params) (payload : Payload) : Payload :=
  if truthyNum params.imagePromptStrength then
    { payload with image_prompt_strength := params.imagePromptStrength }
  else payload

/-- The sizing of lines 411 to 425 (text-to-image branch). -/
def setTextSize (model : String) (params : Params) (payload : Payload) : Payload :=
  if model == "flux-2-pro" then
    -- FLUX 2 Pro uses image_size instead of aspect_ratio
    if truthyStr params.aspectRatio then
      { payload with
        image_size := some (lookupOr aspectRatioMap (strOf params.aspectRatio) "landscape_4_3") }
    else payload
  else if truthyStr params.aspectRatio then
    { payload with aspect_ratio := params.aspectRatio }
  else payload

/-- The resolution assignment of lines 427 to 429 (text-to-image branch). -/
def setResolution (config : ModelConfig) (params : Params) (payload : Payload) : Payload :=
  if truthyStr params.resolution && decide (config.supports.resolutions.length > 0) then
    { payload with resolution := params.resolution }
  else payload

/-- The model-specific part, lines 377 to 430. -/
def setModelSpecific (model : String) (config : ModelConfig) (params : Params)
    (payload : Payload) : Payload :=
  if config.type == "image-to-image" then
    let payload := setSourceImages params payload
    let payload := setEditSize model config params payload
    setImagePromptStrength params payload
  else
    let payload := setTextSize model params payload
    setResolution config params payload

/-- The safety-tolerance assignment of lines 433 to 435. -/
def setSafetyTolerance (config : ModelConfig) (params : Params) (payload : Payload) :
    Payload :=
  if config.supports.safetyTolerance && truthyStr params.safety_tolerance then
    { payload with safety_tolerance := params.safety_tolerance }
  else payload

/-- The seed assignment of lines 437 to 439. -/
def setSeed (config : ModelConfig) (params : Params) (payload : Payload) : Payload :=
  if config.supports.seed && truthyInt params.seed then { payload with seed := params.seed }
  else payload

/-- The prompt-enhancement assignment of lines 441 to 443. -/
def setEnhancePrompt (config : ModelConfig) (params : Params) (payload : Payload) : Payload :=
  if config.supports.enhancePrompt && params.enhancePrompt.isSome then
    { payload with enhance_prompt := params.enhancePrompt }
  else payload

/-- The raw-mode assignment of lines 445 to 447. -/
def setRaw (config : ModelConfig) (params : Params) (payload : Payload) : Payload :=
  if config.supports.raw && params.raw.isSome then { payload with raw := params.raw }
  else payload

/-- The pass-through assignments of lines 449 to 459. -/
def setPassThrough (params : Params) (payload : Payload) : Payload :=
  let payload :=
    if truthyStr params.outputFormat then { payload with output_format := params.outputFormat }
    else payload
  let payload :=
    if params.enableSafetyChecker.isSome then
      { payload with enable_safety_checker := params.enableSafetyChecker }
    else payload
  if params.syncMode.isSome then { payload with sync_mode := params.syncMode }
  else payload

/-- Lines 372 to 461 of `constructFalPayload`, for a `config` that is an own entry of
`FAL_MODEL_CONFIG`: the `payload` object is threaded through the assignments. -/
def constructOwn (model : String) (config : ModelConfig) (params : Params) : Payload :=
  let payload : Payload :=
    { prompt := params.prompt
      num_images :=
        if truthyInt params.num_images then params.num_images.getD 0
        else config.defaults.numImages }
  -- Add model-specific parameters
  let payload := setModelSpecific model config params payload
  -- Add optional parameters if supported
  let payload := setSafetyTolerance config params payload
  let payload := setSeed config params payload
  let payload := setEnhancePrompt config params payload
  let payload := setRaw config params payload
  setPassThrough params payload

/-- The function `constructFalPayload(model, params)` of `src/app.js`. When `config` is
`undefined` the read `config.defaults` (line 374, skipped when `num_images` is truthy)
or `config.type` (line 378) throws. When `config` is inherited from `Object.prototype`,
`config.defaults`, `config.type` and `config.supports` are `undefined`: line 374 throws
unless `num_images` is truthy, the text-to-image branch is taken, line 427 throws when
a resolution is given and line 433 throws otherwise. -/
def constructFalPayload (model : String) (params : Params) : Except JsError Payload :=
  match jsGet FAL_MODEL_CONFIG model with
  | .own config => .ok (constructOwn model config params)
  | .inherited _ =>
    if !truthyInt params.num_images then .error (.typeError "numImages")
    else if truthyStr params.resolution then .error (.typeError "resolutions")
    else .error (.typeError "safetyTolerance")
  | .undefined =>
    if !truthyInt params.num_images then .error (.typeError "defaults")
    else .error (.typeError "type")

/-! ## Upstream service and job driver -/

/-- The response of the submit call: `ok` is derived from `status`, `text` is the body
read by `text()`, `json` is the outcome of `json()` (an error message when the body
does not parse, else the `request_id` field of the parsed object). -/
structure SubmitResponse where
  status : Nat
  text : String
  json : Except String (Option String)

/-- The getter `Response.ok` of the fetch API: the status is in the range 200 to 299. -/
def SubmitResponse.ok (r : SubmitResponse) : Bool :=
  decide (200 ≤ r.status) && decide (r.status < 300)

/-- An image object of the `images` list of a status response. -/
structure Image where
  url : Option String := none
  deriving DecidableEq, Repr

/-- The parsed body of a status response. An element of `images` is an image object or
a falsy value such as `null` (`none`). -/
structure StatusData where
  images : Option (List (Option Image)) := none
  status : Option String := none
  deriving DecidableEq, Repr

/-- The response of a status call; `json` is the outcome of `json()` and of the reads of
the parsed object: an error message when the body is not JSON (or is JSON `null`, whose
property read throws), else the fields the loop reads. -/
structure StatusResponse where
  status : Nat
  json : Except String StatusData

/-- The upstream service as seen by one job: the outcome of `fetch` for the submit call
(by URL and body) and for the `i`-th status call of the job (by URL and `i`); an
`Except.error` is a rejection of `fetch` with that message. -/
structure Upstream where
  submit : String → Payload → Except String SubmitResponse
  status : String → Nat → Except String StatusResponse

/-- A call issued to the upstream service. -/
inductive Call where
  | submit (url : String) (body : Payload)
  | status (url : String)
  deriving DecidableEq, Repr

/-- The constant `maxAttempts` of both polling loops (lines 575 and 693). -/
def maxAttempts : Nat := 600

/-- How a polling loop ends: the loop was left by `break` with `result` set to the first
element of a non-empty image list (`none` when that element is falsy), an error was
thrown, or the loop ran out of attempts with `result` still `null`. -/
inductive PollOutcome where
  | found (result : Option Image)
  | thrown (e : JsError)
  | exhausted
  deriving DecidableEq, Repr

/-- The polling loop of lines 576 to 594 (and 694 to 712) from iteration `i` on, with
`remaining` iterations left; returns how the loop ends and the status calls issued. -/
def pollLoop (up : Upstream) (statusUrl : String) : (remaining : Nat) → (i : Nat) →
    PollOutcome × List Call
  | 0, _ => (.exhausted, [])
  | remaining + 1, i =>
    match up.status statusUrl i with
    | .error message => (.thrown (.error message), [Call.status statusUrl])
    | .ok statusResponse =>
      if statusResponse.status == 200 then
        match statusResponse.json with
        | .error message => (.thrown (.error message), [Call.status statusUrl])
        | .ok data =>
          match data.images with
          | some (first :: _) => (.found first, [Call.status statusUrl])
          | _ =>
            if data.status == some "FAILED" || data.status == some "CANCELLED" then
              (.thrown (.error ("Generation " ++ strOf data.status)), [Call.status statusUrl])
            else
              let rest := pollLoop up statusUrl remaining (i + 1)
              (rest.1, Call.status statusUrl :: rest.2)
      else
        let rest := pollLoop up statusUrl remaining (i + 1)
        (rest.1, Call.status statusUrl :: rest.2)

/-- Submit and poll, lines 555 to 598 (and 674 to 716): the upstream request id and the
first image on success, the thrown error otherwise, with the upstream calls issued. The
test `if (!result)` after the loop throws the time-out error also when the loop was left
with a falsy first element. -/
def runJob (up : Upstream) (config : ModelConfig) (falBody : Payload) :
    Except JsError (Option String × Image) × List Call :=
  let submitCall := Call.submit config.submitUrl falBody
  match up.submit config.submitUrl falBody with
  | .error message => (.error (.error message), [submitCall])
  | .ok submitResponse =>
    if !submitResponse.ok then
      (.error (.error ("Fal.ai submission failed: " ++ toString submitResponse.status ++ " "
        ++ submitResponse.text)), [submitCall])
    else
      match submitResponse.json with
      | .error message => (.error (.error message), [submitCall])
      | .ok requestId =>
        let statusUrl := config.statusBaseUrl ++ "/requests/" ++ strOf requestId
        let polled := pollLoop up statusUrl maxAttempts 0
        match polled.1 with
        | .found (some result) => (.ok (requestId, result), submitCall :: polled.2)
        | .found none => (.error (.error "Generation timed out."), submitCall :: polled.2)
        | .thrown e => (.error e, submitCall :: polled.2)
        | .exhausted => (.error (.error "Generation timed out."), submitCall :: polled.2)

/-! ## Generation records -/

/-- The `imageRecord` object built on success. -/
structure ImageRecord where
  id : Option String
  url : Option String
  lskyUrl : Option String
  prompt : Option String
  model : String
  aspectRatio : Option String
  resolution : Option String
  safety_tolerance : Option String
  seed : Option Int
  outputFormat : Option String
  timestamp : String
  hidden : Bool
  modelType : String
  sourceImage : Option String := none
  sourceImages : Option (List String) := none
  deriving DecidableEq, Repr

/-- Process environment of the server: whether `FAL_KEY` is set, whether both
`LSKY_URL` and `LSKY_TOKEN` are set, what `uploadToLsky` returns for a URL (`none` is
`null`; the helper catches its own errors), and the clock reading of `new Date()`. -/
structure Env where
  falKey : Bool
  lskyConfigured : Bool
  uploadToLsky : Option String → Option String
  now : String

/-- The expression `a || b` on optional strings. -/
def orElseStr (a b : Option String) : Option String :=
  if truthyStr a then a else b

/-- The HTTPS fix of lines 601 to 604 (and 718 to 721): `String.prototype.replace` with
a string pattern rewrites the first occurrence, which `startsWith` puts at index 0. -/
def httpsFix (falUrl : Option String) : Option String :=
  match falUrl with
  | some u =>
    if "http://".data.isPrefixOf u.data then some ("https://" ++ String.mk (u.data.drop 7))
    else some u
  | none => none

/-- The rehosting step of lines 606 to 613 (and 723 to 730). -/
def lskyStep (env : Env) (falUrl : Option String) : Option String :=
  if env.lskyConfigured then env.uploadToLsky falUrl else none

/-! ## The single-generation endpoint -/

/-- What an endpoint handler does with the HTTP request: it sends a JSON error with a
status code, sends a record, sends the batch outcomes, or throws outside every `try`
(the handler promise rejects and no response is sent). -/
inductive HttpResult (α : Type) where
  | error (status : Nat) (message : String)
  | ok (body : α)
  | unhandled (e : JsError)
  deriving DecidableEq, Repr

/-- The object literal handed to `validateModelParameters` at lines 520 to 528. -/
def validationParams (req : Params) : Params :=
  { aspectRatio := req.aspectRatio
    resolution := req.resolution
    safety_tolerance := req.safety_tolerance
    seed := req.seed
    outputFormat := req.outputFormat
    image_url := req.image_url
    imageUrls := req.imageUrls }

/-- The object literal handed to `constructFalPayload` at lines 535 to 550. -/
def payloadParams (req : Params) : Params :=
  { prompt := req.prompt
    aspectRatio := req.aspectRatio
    resolution := req.resolution
    safety_tolerance := req.safety_tolerance
    seed := req.seed
    outputFormat := req.outputFormat
    num_images := req.num_images
    image_url := req.image_url
    imageUrls := req.imageUrls
    enhancePrompt := req.enhancePrompt
    raw := req.raw
    imagePromptStrength := req.imagePromptStrength
    imageSize := req.imageSize
    enableSafetyChecker := req.enableSafetyChecker }

/-- The record of lines 616 to 633. -/
def singleRecord (env : Env) (config : ModelConfig) (req : Params) (requestId : Option String)
    (result : Image) : ImageRecord :=
  let falUrl := httpsFix result.url
  let lskyUrl := lskyStep env falUrl
  { id := requestId
    url := falUrl
    lskyUrl := lskyUrl
    prompt := req.prompt
    model := strOf req.model
    aspectRatio := orElseStr req.aspectRatio config.defaults.aspectRatio
    resolution := orElseStr req.resolution config.defaults.resolution
    safety_tolerance := req.safety_tolerance
    seed := req.seed
    outputFormat := orElseStr req.outputFormat config.defaults.outputFormat
    timestamp := env.now
    hidden := false
    modelType := config.type
    sourceImage := if truthyStr req.image_url then req.image_url else none
    sourceImages := if truthyList req.imageUrls then req.imageUrls else none }

/-- The handler of `POST /api/generate` (lines 490 to 643): the response and the
upstream calls issued. The calls of `validateModelParameters` and `constructFalPayload`
stand before the `try`, so an error they throw leaves the handler unhandled. -/
def generate (env : Env) (up : Upstream) (req : Params) :
    HttpResult ImageRecord × List Call :=
  if !env.falKey then (.error 500 "Server missing FAL_KEY configuration.", [])
  else if !truthyStr req.model then (.error 400 "Invalid or missing model.", [])
  else
    match jsGet FAL_MODEL_CONFIG (strOf req.model) with
    | .undefined => (.error 400 "Invalid or missing model.", [])
    | looked =>
      if !truthyStr req.prompt then (.error 400 "Missing prompt.", [])
      else
        match validateModelParameters (strOf req.model) (validationParams req) with
        | .error e => (.unhandled e, [])
        | .ok validation =>
          if !validation.valid then
            match validation.errors with
            | some errors => (.error 400 (join errors ", "), [])
            | none => (.unhandled (.typeError "join"), [])
          else
            match constructFalPayload (strOf req.model) (payloadParams req), looked with
            | .ok falBody, .own config =>
              let job := runJob up config falBody
              match job.1 with
              | .ok (requestId, result) =>
                (.ok (singleRecord env config req requestId result), job.2)
              | .error e => (.error 500 e.message, job.2)
            | .error e, _ => (.unhandled e, [])
            -- not reached: the payload builder returns only for an own entry
            | .ok _, _ => (.unhandled (.typeError "submitUrl"), [])

/-! ## The bulk endpoint -/

/-- One element of the `results` array of the bulk response: `success` carries the
record (field `result`), `failure` carries `error` and, when the object has it, the
field `params`. -/
inductive Outcome where
  | success (result : ImageRecord)
  | failure (error : String) (params : Option Params)
  deriving DecidableEq, Repr

/-- The record of lines 732 to 746. -/
def bulkRecord (env : Env) (config : ModelConfig) (requestParams : Params)
    (requestId : Option String) (result : Image) : ImageRecord :=
  let falUrl := httpsFix result.url
  let lskyUrl := lskyStep env falUrl
  { id := requestId
    url := falUrl
    lskyUrl := lskyUrl
    prompt := requestParams.prompt
    model := strOf requestParams.model
    aspectRatio := orElseStr requestParams.aspectRatio config.defaults.aspectRatio
    resolution := orElseStr requestParams.resolution config.defaults.resolution
    safety_tolerance := requestParams.safety_tolerance
    seed := requestParams.seed
    outputFormat := orElseStr requestParams.outputFormat config.defaults.outputFormat
    timestamp := env.now
    hidden := false
    modelType := config.type }

/-- The async callback of lines 663 to 751 for one request, followed by the mapping of
its settled promise at lines 754 to 757: a returned object is kept, a thrown error
becomes a failure that carries only the error message. -/
def bulkSlot (env : Env) (up : Upstream) (requestParams : Params) : Outcome × List Call :=
  let model := strOf requestParams.model
  match validateModelParameters model requestParams with
  | .error e => (.failure e.message none, [])
  | .ok validation =>
    if !validation.valid then
      match validation.errors with
      | some errors => (.failure (join errors ", ") (some requestParams), [])
      | none => (.failure (JsError.typeError "join").message none, [])
    else
      match constructFalPayload model requestParams, jsGet FAL_MODEL_CONFIG model with
      | .ok falBody, .own config =>
        let job := runJob up config falBody
        match job.1 with
        | .ok (requestId, result) =>
          (.success (bulkRecord env config requestParams requestId result), job.2)
        | .error e => (.failure e.message none, job.2)
      | .error e, _ => (.failure e.message none, [])
      -- not reached: the payload builder returns only for an own entry
      | .ok _, _ => (.failure (JsError.typeError "submitUrl").message none, [])

/-- The constant 5 of line 657. -/
def maxBulkRequests : Nat := 5

/-- The handler of `POST /api/generate/bulk` (lines 646 to 764) for a body whose
`requests` field is an array, with one upstream view per slot: the response and, slot
by slot, the upstream calls issued. -/
def generateBulk (env : Env) (ups : Nat → Upstream) (requests : List Params) :
    HttpResult (List Outcome) × List (List Call) :=
  if !env.falKey then (.error 500 "Server missing FAL_KEY configuration.", [])
  else if requests.length == 0 then (.error 400 "Invalid or empty requests array.", [])
  else if requests.length > maxBulkRequests then
    (.error 400 "Maximum 5 requests per bulk operation.", [])
  else
    let results := requests.enum.map (fun ir => bulkSlot env (ups ir.1) ir.2)
    (.ok (results.map (fun r => r.1)), results.map (fun r => r.2))

/-! ## Statements of the specification, for comparison with the code -/

/-- The source-image condition of the specification for an image-to-image request: a
single source URL or a non-empty list of source URLs is given, and a list of more than
one URL is given only to a model that declares `multiImage`. -/
def SourceImagesSupported (config : ModelConfig) (params : Params) : Prop :=
  ((∃ u, params.image_url = some u ∧ u ≠ "") ∨
    (∃ us, params.imageUrls = some us ∧ us ≠ [])) ∧
  (∀ us, params.imageUrls = some us → 1 < us.length →
    config.supports.multiImage = some true)

/-- A request that contains only fields the model declares supported, as the
specification words it: every given value is taken from the list the model declares,
a seed or safety tolerance is given only when the flag is true, and an image-to-image
request carries source images the model supports. -/
def OnlySupportedFields (config : ModelConfig) (params : Params) : Prop :=
  (∀ r, params.aspectRatio = some r → r ∈ config.supports.aspectRatios) ∧
  (∀ r, params.resolution = some r → r ∈ config.supports.resolutions) ∧
  (∀ f, params.outputFormat = some f → f ∈ config.supports.outputFormats) ∧
  (params.seed ≠ none → config.supports.seed = true) ∧
  (params.safety_tolerance ≠ none → config.supports.safetyTolerance = true) ∧
  (config.type = "image-to-image" → SourceImagesSupported config params)

/-- The same condition with the aspect-ratio clause the validator applies: for the two
named-size models a given aspect ratio is taken from the fixed list `validRatios`, for
every other model from the list the model declares. -/
def OnlySupportedFieldsNamedSize (model : String) (config : ModelConfig) (params : Params) :
    Prop :=
  (∀ r, params.aspectRatio = some r →
    if model = "flux-2-pro" ∨ model = "flux-2-pro-edit" then r ∈ validRatios
    else r ∈ config.supports.aspectRatios) ∧
  (∀ r, params.resolution = some r → r ∈ config.supports.resolutions) ∧
  (∀ f, params.outputFormat = some f → f ∈ config.supports.outputFormats) ∧
  (params.seed ≠ none → config.supports.seed = true) ∧
  (params.safety_tolerance ≠ none → config.supports.safetyTolerance = true) ∧
  (config.type = "image-to-image" → SourceImagesSupported config params)

/-- Whether an error list holds an aspect-ratio error, that is, a message that begins
with the words `Invalid aspect ratio`. -/
def hasAspectRatioError (errors : List String) : Bool :=
  errors.any (fun e => "Invalid aspect ratio".data.isPrefixOf e.data)

/-- The aspect-ratio rule of the specification: a given aspect ratio must be in the
fixed reduced set for the two named-size models, and for every other model in the
declared set when that set is non-empty. -/
def aspectRatioViolated (model : String) (config : ModelConfig) (params : Params) : Bool :=
  match params.aspectRatio with
  | some r =>
    if model = "flux-2-pro" ∨ model = "flux-2-pro-edit" then
      !(["1:1", "16:9", "9:16", "4:3", "3:2"].contains r)
    else !config.supports.aspectRatios.isEmpty && !config.supports.aspectRatios.contains r
  | none => false

/-- The resolution rule: a given resolution must be in the declared set. -/
def resolutionViolated (config : ModelConfig) (params : Params) : Bool :=
  match params.resolution with
  | some r => !config.supports.resolutions.contains r
  | none => false

/-- The output-format rule: a given format must be in the declared set. -/
def outputFormatViolated (config : ModelConfig) (params : Params) : Bool :=
  match params.outputFormat with
  | some f => !config.supports.outputFormats.contains f
  | none => false

/-- The safety-tolerance rule: a given value needs the capability flag. -/
def safetyToleranceViolated (config : ModelConfig) (params : Params) : Bool :=
  params.safety_tolerance.isSome && !config.supports.safetyTolerance

/-- The seed rule: a given seed value needs the capability flag. -/
def seedViolated (config : ModelConfig) (params : Params) : Bool :=
  params.seed.isSome && !config.supports.seed

/-- The missing-source rule: an image-to-image request must carry a single source URL
or a non-empty list of source URLs. -/
def sourceMissing (config : ModelConfig) (params : Params) : Bool :=
  config.type == "image-to-image" && params.image_url.isNone
    && (params.imageUrls.getD []).isEmpty

/-- The multi-image rule: a list of more than one source URL needs `multiImage`. -/
def multiImageViolated (config : ModelConfig) (params : Params) : Bool :=
  config.type == "image-to-image" && decide (1 < (params.imageUrls.getD []).length)
    && !truthyBool config.supports.multiImage

/-- The error list the specification prescribes: one message for each violated rule, in
the order aspect ratio, resolution, output format, safety tolerance, seed, missing
source image, multiple source images. -/
def specErrors (model : String) (config : ModelConfig) (params : Params) : List String :=
  (if aspectRatioViolated model config params then
    ["Invalid aspect ratio \"" ++ strOf params.aspectRatio ++ "\" for " ++ model
      ++ ". Supported: " ++
      (if model = "flux-2-pro" ∨ model = "flux-2-pro-edit" then "1:1, 16:9, 9:16, 4:3, 3:2"
        else join config.supports.aspectRatios ", ")]
    else []) ++
  (if resolutionViolated config params then
    ["Invalid resolution \"" ++ strOf params.resolution ++ "\" for " ++ model
      ++ ". Supported: " ++ join config.supports.resolutions ", "]
    else []) ++
  (if outputFormatViolated config params then
    ["Invalid output format \"" ++ strOf params.outputFormat ++ "\" for " ++ model
      ++ ". Supported: " ++ join config.supports.outputFormats ", "]
    else []) ++
  (if safetyToleranceViolated config params then
    ["Model " ++ model ++ " does not support safety_tolerance parameter"] else []) ++
  (if seedViolated config params then
    ["Model " ++ model ++ " does not support seed parameter"] else []) ++
  (if sourceMissing config params then ["Model " ++ model ++ " requires image URLs"]
    else []) ++
  (if multiImageViolated config params then
    ["Model " ++ model ++ " does not support multiple input images"] else [])

/-- A request none of whose given values is falsy in JavaScript: it gives no empty
string as aspect ratio, resolution, output format, safety tolerance or source URL, and
not the seed 0. -/
def Params.noFalsyValue (params : Params) : Prop :=
  params.aspectRatio ≠ some "" ∧ params.resolution ≠ some "" ∧
  params.outputFormat ≠ some "" ∧ params.safety_tolerance ≠ some "" ∧
  params.seed ≠ some 0 ∧ params.image_url ≠ some ""

/-- What a poll response decides, in the words of the specification: the job succeeds
with the first element of the image list as its output, or the job fails with the
reported status. -/
inductive Decision where
  | succeeded (output : Option Image)
  | failed (status : String)
  deriving DecidableEq, Repr

/-- The decision of one poll response according to the specification: a 200 response
with a non-empty image list decides success with the first element of the list; a 200
response with status `FAILED` or `CANCELLED` decides failure; every other response
decides nothing. A response that has both an image list and a failed status is taken by
its image list, as the source tests the images first. -/
def pollDecision (r : StatusResponse) : Option Decision :=
  if r.status = 200 then
    match r.json with
    | .ok data =>
      match data.images with
      | some (first :: _) => some (.succeeded first)
      | _ =>
        if data.status = some "FAILED" ∨ data.status = some "CANCELLED" then
          some (.failed (strOf data.status))
        else none
    | .error _ => none
  else none

/-- A poll response whose body can be read: a 200 response carries a JSON body. -/
def StatusResponse.parses (r : StatusResponse) : Prop :=
  r.status = 200 → ∃ data, r.json = .ok data

/-- An upstream that accepts the submission of a job with the given request id and
answers the first `n` polls: the `i`-th poll gets the response `responses i`, and a 200
response carries a JSON body. -/
def Upstream.Serves (up : Upstream) (config : ModelConfig) (falBody : Payload)
    (requestId : Option String) (responses : Nat → StatusResponse) (n : Nat) : Prop :=
  (∃ submitResponse, up.submit config.submitUrl falBody = .ok submitResponse ∧
    submitResponse.ok = true ∧ submitResponse.json = .ok requestId) ∧
  ∀ i, i < n →
    up.status (config.statusBaseUrl ++ "/requests/" ++ strOf requestId) i = .ok (responses i) ∧
    (responses i).parses

/-- The messages the seven checks add, each check started from the empty array. -/
def ownErrors (model : String) (config : ModelConfig) (params : Params) : List String :=
  checkAspectRatio model config params [] ++ checkResolution model config params [] ++
  checkOutputFormat model config params [] ++ checkSafetyTolerance model config params [] ++
  checkSeed model config params [] ++
  (if config.type = "image-to-image" then
    checkImageUrls model params [] ++ checkMultiImage model config params [] else [])

/-! ## Theorems

### Registry and validator: auxiliary facts -/

/-- A model of the table is found by the property read, as an own entry. -/
theorem jsGet_of_mem {model : String} {config : ModelConfig}
    (h : (model, config) ∈ FAL_MODEL_CONFIG) :
    jsGet FAL_MODEL_CONFIG model = .own config := by
  simp only [FAL_MODEL_CONFIG, List.mem_cons, Prod.mk.injEq, List.mem_singleton,
    List.not_mem_nil, or_false] at h
  rcases h with ⟨rfl, rfl⟩ | ⟨rfl, rfl⟩ | ⟨rfl, rfl⟩ | ⟨rfl, rfl⟩ | ⟨rfl, rfl⟩ | ⟨rfl, rfl⟩ <;> rfl

/-- For a model of the table the validator runs the seven checks and does not throw. -/
theorem validate_of_mem {model : String} {config : ModelConfig}
    (h : (model, config) ∈ FAL_MODEL_CONFIG) (params : Params) :
    validateModelParameters model params = .ok (validateOwn model config params) := by
  simp only [validateModelParameters, jsGet_of_mem h]

theorem checkAspectRatio_append (model : String) (config : ModelConfig) (params : Params)
    (errors : List String) :
    checkAspectRatio model config params errors
      = errors ++ checkAspectRatio model config params [] := by
  unfold checkAspectRatio; split_ifs <;> simp

theorem checkResolution_append (model : String) (config : ModelConfig) (params : Params)
    (errors : List String) :
    checkResolution model config params errors
      = errors ++ checkResolution model config params [] := by
  unfold checkResolution; split_ifs <;> simp

theorem checkOutputFormat_append (model : String) (config : ModelConfig) (params : Params)
    (errors : List String) :
    checkOutputFormat model config params errors
      = errors ++ checkOutputFormat model config params [] := by
  unfold checkOutputFormat; split_ifs <;> simp

theorem checkSafetyTolerance_append (model : String) (config : ModelConfig) (params : Params)
    (errors : List String) :
    checkSafetyTolerance model config params errors
      = errors ++ checkSafetyTolerance model config params [] := by
  unfold checkSafetyTolerance; split_ifs <;> simp

theorem checkSeed_append (model : String) (config : ModelConfig) (params : Params)
    (errors : List String) :
    checkSeed model config params errors = errors ++ checkSeed model config params [] := by
  unfold checkSeed; split_ifs <;> simp

theorem checkImageUrls_append (model : String) (params : Params) (errors : List String) :
    checkImageUrls model params errors = errors ++ checkImageUrls model params [] := by
  unfold checkImageUrls; split_ifs <;> simp

theorem checkMultiImage_append (model : String) (config : ModelConfig) (params : Params)
    (errors : List String) :
    checkMultiImage model config params errors
      = errors ++ checkMultiImage model config params [] := by
  unfold checkMultiImage; split_ifs <;> simp

/-- The result of the seven checks: the messages in order, and `valid` when none. -/
theorem validateOwn_eq (model : String) (config : ModelConfig) (params : Params) :
    validateOwn model config params =
      { valid := (ownErrors model config params).length == 0,
        errors := some (ownErrors model config params) } := by
  have h : (if (config.type == "image-to-image") = true then
        checkMultiImage model config params (checkImageUrls model params
          (checkSeed model config params (checkSafetyTolerance model config params
            (checkOutputFormat model config params (checkResolution model config params
              (checkAspectRatio model config params []))))))
      else checkSeed model config params (checkSafetyTolerance model config params
            (checkOutputFormat model config params (checkResolution model config params
              (checkAspectRatio model config params []))))) = ownErrors model config params := by
    unfold ownErrors
    rw [checkMultiImage_append, checkImageUrls_append, checkSeed_append,
      checkSafetyTolerance_append, checkOutputFormat_append, checkResolution_append]
    by_cases ht : config.type = "image-to-image" <;> simp [ht]
  simp only [validateOwn]
  rw [h]

/-- Two strings with different character lists are different. -/
theorem str_data_ne {a b : String} (h : a.data ≠ b.data) : a ≠ b :=
  fun hab => h (congrArg String.data hab)

/-- The aspect-ratio check adds nothing or one message that begins `Invalid aspect`. -/
theorem mem_checkAspectRatio {model : String} {config : ModelConfig} {params : Params}
    {e : String} (h : e ∈ checkAspectRatio model config params []) :
    ∃ rest, e = "Invalid aspect ratio \"" ++ rest := by
  unfold checkAspectRatio at h
  split_ifs at h <;> simp at h <;> exact ⟨_, by rw [h]; simp only [String.append_assoc]; rfl⟩

/-- The resolution check adds nothing or one message that begins `Invalid resolution`. -/
theorem mem_checkResolution {model : String} {config : ModelConfig} {params : Params}
    {e : String} (h : e ∈ checkResolution model config params []) :
    ∃ rest, e = "Invalid resolution \"" ++ rest := by
  unfold checkResolution at h
  split_ifs at h <;> simp at h
  exact ⟨_, by rw [h]; simp only [String.append_assoc]; rfl⟩

/-- The format check adds nothing or one message that begins `Invalid output format`. -/
theorem mem_checkOutputFormat {model : String} {config : ModelConfig} {params : Params}
    {e : String} (h : e ∈ checkOutputFormat model config params []) :
    ∃ rest, e = "Invalid output format \"" ++ rest := by
  unfold checkOutputFormat at h
  split_ifs at h <;> simp at h
  exact ⟨_, by rw [h]; simp only [String.append_assoc]; rfl⟩

theorem mem_checkSafetyTolerance {model : String} {config : ModelConfig} {params : Params}
    {e : String} (h : e ∈ checkSafetyTolerance model config params []) :
    e = "Model " ++ model ++ " does not support safety_tolerance parameter" := by
  unfold checkSafetyTolerance at h
  split_ifs at h <;> simp at h; exact h

theorem mem_checkSeed {model : String} {config : ModelConfig} {params : Params}
    {e : String} (h : e ∈ checkSeed model config params []) :
    e = "Model " ++ model ++ " does not support seed parameter" := by
  unfold checkSeed at h
  split_ifs at h <;> simp at h; exact h

theorem mem_checkImageUrls {model : String} {params : Params}
    {e : String} (h : e ∈ checkImageUrls model params []) :
    e = "Model " ++ model ++ " requires image URLs" := by
  unfold checkImageUrls at h
  split_ifs at h <;> simp at h; exact h

theorem mem_checkMultiImage {model : String} {config : ModelConfig} {params : Params}
    {e : String} (h : e ∈ checkMultiImage model config params []) :
    e = "Model " ++ model ++ " does not support multiple input images" := by
  unfold checkMultiImage at h
  split_ifs at h <;> simp at h; exact h

/-! ### Request validator -/

/-- The part of C1 the code does: for every model of `FAL_MODEL_CONFIG` and every request
that contains only supported fields, where a given aspect ratio is taken from the fixed
list `validRatios` for `flux-2-pro` and `flux-2-pro-edit` and from the model's
`supports.aspectRatios` for every other model, `validateModelParameters` returns
`valid = true` with an empty error list. -/
theorem supported_request_valid (model : String) (config : ModelConfig) (params : Params)
    (hm : (model, config) ∈ FAL_MODEL_CONFIG)
    (hs : OnlySupportedFieldsNamedSize model config params) :
    validateModelParameters model params = .ok { valid := true, errors := some [] } := by
  obtain ⟨ha, hr, hf, hseed, htol, hsrc⟩ := hs
  have h1 : checkAspectRatio model config params [] = [] := by
    unfold checkAspectRatio
    cases hp : params.aspectRatio with
    | none => simp [truthyStr]
    | some r =>
      have := ha r hp
      by_cases hn : model = "flux-2-pro" ∨ model = "flux-2-pro-edit"
      · rw [if_pos hn] at this
        simp [strOf, this, hn]
      · rw [if_neg hn] at this
        simp [strOf, this, hn]
  have h2 : checkResolution model config params [] = [] := by
    unfold checkResolution
    cases hp : params.resolution with
    | none => simp [truthyStr]
    | some r => simp [strOf, hr r hp]
  have h3 : checkOutputFormat model config params [] = [] := by
    unfold checkOutputFormat
    cases hp : params.outputFormat with
    | none => simp [truthyStr]
    | some r => simp [strOf, hf r hp]
  have h4 : checkSafetyTolerance model config params [] = [] := by
    unfold checkSafetyTolerance
    cases hp : params.safety_tolerance with
    | none => simp [truthyStr]
    | some r => simp [htol (by simp [hp])]
  have h5 : checkSeed model config params [] = [] := by
    unfold checkSeed
    cases hp : params.seed with
    | none => simp [truthyInt]
    | some r => simp [hseed (by simp [hp])]
  have h6 : (if config.type = "image-to-image" then
      checkImageUrls model params [] ++ checkMultiImage model config params [] else []) = [] := by
    by_cases ht : config.type = "image-to-image"
    · rw [if_pos ht]
      obtain ⟨hgiven, hmulti⟩ := hsrc ht
      have a1 : checkImageUrls model params [] = [] := by
        unfold checkImageUrls
        rcases hgiven with ⟨u, hu, hne⟩ | ⟨us, hus, _⟩
        · simp [hu, truthyStr, hne]
        · simp [hus, truthyList]
      have a2 : checkMultiImage model config params [] = [] := by
        unfold checkMultiImage
        cases hp : params.imageUrls with
        | none => simp [truthyList]
        | some us =>
          by_cases hl : 1 < us.length
          · simp [hmulti us hp hl, truthyBool]
          · simp [hl]
      rw [a1, a2]; rfl
    · rw [if_neg ht]
  rw [validate_of_mem hm, validateOwn_eq]
  simp [ownErrors, h1, h2, h3, h4, h5, h6]

/-- An instance of the part of C1 the code does: `flux-2-pro-edit` with aspect ratio
`16:9` and one source image URL. -/
theorem supported_request_valid_witness :
    validateModelParameters "flux-2-pro-edit"
        { aspectRatio := some "16:9", image_url := some "https://x/y.png" }
      = .ok { valid := true, errors := some [] } :=
  supported_request_valid "flux-2-pro-edit"
    ((FAL_MODEL_CONFIG.lookup "flux-2-pro-edit").get (by decide)) _ (by decide)
    (by
      refine ⟨?_, ?_, ?_, ?_, ?_, ?_⟩
      · intro r h; simp at h; subst h; decide
      · intro r h; simp at h
      · intro r h; simp at h
      · intro h; simp at h
      · intro h; simp at h
      · intro _
        exact ⟨Or.inl ⟨_, rfl, by decide⟩, by intro us h; simp at h⟩)

/-- Claim C1, the code at the failing input: `flux-2-pro-edit` declares the aspect ratio
`auto` in `supports.aspectRatios`, the request gives `auto` and a source image URL and
nothing else, so it contains only fields the model declares supported, and
`validateModelParameters` returns `valid = false` with an aspect-ratio error. -/
theorem supported_request_rejected :
    ∃ config, ("flux-2-pro-edit", config) ∈ FAL_MODEL_CONFIG ∧
      OnlySupportedFields config
        { aspectRatio := some "auto", image_url := some "https://x/y.png" } ∧
      validateModelParameters "flux-2-pro-edit"
        { aspectRatio := some "auto", image_url := some "https://x/y.png" }
      = .ok { valid := false
              errors := some ["Invalid aspect ratio \"auto\" for flux-2-pro-edit. Supported: 1:1, 16:9, 9:16, 4:3, 3:2"] } := by
  refine ⟨(FAL_MODEL_CONFIG.lookup "flux-2-pro-edit").get (by decide), by decide, ?_, by rfl⟩
  refine ⟨?_, ?_, ?_, ?_, ?_, ?_⟩
  · intro r h; simp at h; subst h; decide
  · intro r h; simp at h
  · intro r h; simp at h
  · intro h; simp at h
  · intro h; simp at h
  · intro _
    exact ⟨Or.inl ⟨_, rfl, by decide⟩, by intro us h; simp at h⟩

/-- Claim C2, as amended: for every model of `FAL_MODEL_CONFIG` whose `supports.seed`
flag is false and every request that gives a seed other than zero,
`validateModelParameters` returns `valid = false` and its error list holds the message
that the model does not support the seed parameter; likewise for a model whose
`supports.safetyTolerance` flag is false and a request that gives a non-empty
`safety_tolerance`, with the message that names `safety_tolerance`. -/
theorem unsupported_seed_or_tolerance_rejected (model : String) (config : ModelConfig)
    (params : Params) (hm : (model, config) ∈ FAL_MODEL_CONFIG) :
    (config.supports.seed = false → ∀ n, params.seed = some n → n ≠ 0 →
      ∃ errors, validateModelParameters model params
          = .ok { valid := false, errors := some errors } ∧
        "Model " ++ model ++ " does not support seed parameter" ∈ errors) ∧
    (config.supports.safetyTolerance = false →
      ∀ t, params.safety_tolerance = some t → t ≠ "" →
      ∃ errors, validateModelParameters model params
          = .ok { valid := false, errors := some errors } ∧
        "Model " ++ model ++ " does not support safety_tolerance parameter" ∈ errors) := by
  rw [validate_of_mem hm, validateOwn_eq]
  constructor
  · intro hs n hp hn
    have hmem : "Model " ++ model ++ " does not support seed parameter"
        ∈ ownErrors model config params := by
      simp [ownErrors, checkSeed, hp, truthyInt, hn, hs]
    refine ⟨_, ?_, hmem⟩
    have hlen : ((ownErrors model config params).length == 0) = false := by
      cases hl : ownErrors model config params with
      | nil => rw [hl] at hmem; simp at hmem
      | cons _ _ => rfl
    rw [hlen]
  · intro hs t hp hn
    have hmem : "Model " ++ model ++ " does not support safety_tolerance parameter"
        ∈ ownErrors model config params := by
      simp [ownErrors, checkSafetyTolerance, hp, truthyStr, hn, hs]
    refine ⟨_, ?_, hmem⟩
    have hlen : ((ownErrors model config params).length == 0) = false := by
      cases hl : ownErrors model config params with
      | nil => rw [hl] at hmem; simp at hmem
      | cons _ _ => rfl
    rw [hlen]

/-- Witness of C2 as amended: `imagen4-preview` (no seed support) with seed 5, and
`nano-banana-pro` (no safety-tolerance support) with safety tolerance `2`. -/
theorem unsupported_seed_or_tolerance_rejected_witness :
    (∃ errors, validateModelParameters "imagen4-preview" { seed := some 5 }
        = .ok { valid := false, errors := some errors } ∧
      "Model " ++ "imagen4-preview" ++ " does not support seed parameter" ∈ errors) ∧
    (∃ errors, validateModelParameters "nano-banana-pro" { safety_tolerance := some "2" }
        = .ok { valid := false, errors := some errors } ∧
      "Model " ++ "nano-banana-pro" ++ " does not support safety_tolerance parameter"
        ∈ errors) :=
  ⟨(unsupported_seed_or_tolerance_rejected "imagen4-preview"
      ((FAL_MODEL_CONFIG.lookup "imagen4-preview").get (by decide)) { seed := some 5 }
      (by decide)).1 (by decide) 5 rfl (by decide),
   (unsupported_seed_or_tolerance_rejected "nano-banana-pro"
      ((FAL_MODEL_CONFIG.lookup "nano-banana-pro").get (by decide))
      { safety_tolerance := some "2" } (by decide)).2 (by decide) "2" rfl (by decide)⟩

/-- Counterexample to claim C2 as stated: `imagen4-preview` has `supports.seed = false`,
the request gives the seed 0, and `validateModelParameters` returns `valid = true` with
no error. -/
theorem seed_zero_accepted :
    ∃ config, ("imagen4-preview", config) ∈ FAL_MODEL_CONFIG ∧
      config.supports.seed = false ∧
      validateModelParameters "imagen4-preview" { seed := some 0 }
        = .ok { valid := true, errors := some [] } :=
  ⟨(FAL_MODEL_CONFIG.lookup "imagen4-preview").get (by decide), by decide, by decide, by decide⟩

/-- Claim C3, the code at the failing input: `nano-banana-pro-edit` and
`flux-2-pro-edit` are image-to-image models, the request carries the empty list as
`imageUrls` and no `image_url`, so zero source URLs, and `validateModelParameters`
returns `valid = true` without the error `requires image URLs`. -/
theorem empty_imageUrls_accepted :
    (∃ config, ("nano-banana-pro-edit", config) ∈ FAL_MODEL_CONFIG ∧
      config.type = "image-to-image" ∧
      validateModelParameters "nano-banana-pro-edit" { imageUrls := some [] }
        = .ok { valid := true, errors := some [] }) ∧
    (∃ config, ("flux-2-pro-edit", config) ∈ FAL_MODEL_CONFIG ∧
      config.type = "image-to-image" ∧
      validateModelParameters "flux-2-pro-edit" { imageUrls := some [] }
        = .ok { valid := true, errors := some [] }) :=
  ⟨⟨(FAL_MODEL_CONFIG.lookup "nano-banana-pro-edit").get (by decide), by decide, by decide,
      by decide⟩,
   ⟨(FAL_MODEL_CONFIG.lookup "flux-2-pro-edit").get (by decide), by decide, by decide,
      by decide⟩⟩

/-- The part of C3 the code does: an image-to-image request with neither `imageUrls`
nor a non-empty `image_url` gets the error `requires image URLs`. -/
theorem absent_source_images_rejected (model : String) (config : ModelConfig)
    (params : Params) (hm : (model, config) ∈ FAL_MODEL_CONFIG)
    (ht : config.type = "image-to-image") (hl : params.imageUrls = none)
    (hu : truthyStr params.image_url = false) :
    ∃ errors, validateModelParameters model params
        = .ok { valid := false, errors := some errors } ∧
      "Model " ++ model ++ " requires image URLs" ∈ errors := by
  rw [validate_of_mem hm, validateOwn_eq]
  have hmem : "Model " ++ model ++ " requires image URLs" ∈ ownErrors model config params := by
    simp [ownErrors, checkImageUrls, ht, hl, hu, truthyList]
  refine ⟨_, ?_, hmem⟩
  have hlen : ((ownErrors model config params).length == 0) = false := by
    cases hl : ownErrors model config params with
    | nil => rw [hl] at hmem; simp at hmem
    | cons _ _ => rfl
  rw [hlen]

/-- Claim C4: for every image-to-image model of `FAL_MODEL_CONFIG` and every request
whose `imageUrls` list has more than one element, the error list of
`validateModelParameters` holds the message `does not support multiple input images`
if and only if the model does not declare `supports.multiImage`; a request with two
source URLs and no other parameter is invalid for `flux-2-pro-edit` and valid for
`nano-banana-pro-edit`. -/
theorem multi_image_error_iff :
    (∀ (model : String) (config : ModelConfig) (params : Params) (us : List String),
      (model, config) ∈ FAL_MODEL_CONFIG → config.type = "image-to-image" →
      params.imageUrls = some us → 1 < us.length →
      ∃ valid errors, validateModelParameters model params
          = .ok { valid := valid, errors := some errors } ∧
        ("Model " ++ model ++ " does not support multiple input images" ∈ errors ↔
          truthyBool config.supports.multiImage = false)) ∧
    (∀ (m : Option String) (u₁ u₂ : String),
      validateModelParameters "flux-2-pro-edit" { model := m, imageUrls := some [u₁, u₂] }
        = .ok { valid := false
                errors := some ["Model flux-2-pro-edit does not support multiple input images"] }) ∧
    (∀ (m : Option String) (u₁ u₂ : String),
      validateModelParameters "nano-banana-pro-edit" { model := m, imageUrls := some [u₁, u₂] }
        = .ok { valid := true, errors := some [] }) := by
  refine ⟨?_, ?_, ?_⟩
  · intro model config params us hm ht hp hl
    rw [validate_of_mem hm, validateOwn_eq]
    refine ⟨_, _, rfl, ?_⟩
    constructor
    · intro hmem
      by_contra hmulti
      simp only [ownErrors, ht, if_true, List.mem_append] at hmem
      rcases hmem with (((((h | h) | h) | h) | h) | (h | h))
      · obtain ⟨rest, hr⟩ := mem_checkAspectRatio h
        exact absurd hr (str_data_ne (by simp [String.data_append]))
      · obtain ⟨rest, hr⟩ := mem_checkResolution h
        exact absurd hr (str_data_ne (by simp [String.data_append]))
      · obtain ⟨rest, hr⟩ := mem_checkOutputFormat h
        exact absurd hr (str_data_ne (by simp [String.data_append]))
      · exact absurd (mem_checkSafetyTolerance h) (str_data_ne (by simp [String.data_append]))
      · exact absurd (mem_checkSeed h) (str_data_ne (by simp [String.data_append]))
      · exact absurd (mem_checkImageUrls h) (str_data_ne (by simp [String.data_append]))
      · have : checkMultiImage model config params [] = [] := by
          unfold checkMultiImage
          simp at hmulti
          simp [hmulti]
        rw [this] at h
        simp at h
    · intro hmulti
      simp [ownErrors, ht, checkMultiImage, hp, truthyList, hl, hmulti]
  · intro m u₁ u₂
    have hmem : ("flux-2-pro-edit", (FAL_MODEL_CONFIG.lookup "flux-2-pro-edit").get (by decide))
        ∈ FAL_MODEL_CONFIG := by decide
    rw [validate_of_mem hmem]
    rfl
  · intro m u₁ u₂
    have hmem : ("nano-banana-pro-edit", (FAL_MODEL_CONFIG.lookup "nano-banana-pro-edit").get (by decide))
        ∈ FAL_MODEL_CONFIG := by decide
    rw [validate_of_mem hmem]
    rfl

/-- Witness of C4: `flux-2-pro-edit` with two source URLs. -/
theorem multi_image_error_iff_witness :
    ∃ valid errors, validateModelParameters "flux-2-pro-edit"
        { imageUrls := some ["https://x/a.png", "https://x/b.png"] }
        = .ok { valid := valid, errors := some errors } ∧
      ("Model " ++ "flux-2-pro-edit" ++ " does not support multiple input images" ∈ errors ↔
        truthyBool ((FAL_MODEL_CONFIG.lookup "flux-2-pro-edit").get
          (by decide)).supports.multiImage = false) :=
  multi_image_error_iff.1 "flux-2-pro-edit"
    ((FAL_MODEL_CONFIG.lookup "flux-2-pro-edit").get (by decide))
    { imageUrls := some ["https://x/a.png", "https://x/b.png"] }
    ["https://x/a.png", "https://x/b.png"] (by decide) (by decide) rfl (by decide)

/-! ### Payload builder: auxiliary facts -/

/-- For a model of the table the payload builder runs the assignments and does not throw. -/
theorem construct_of_mem {model : String} {config : ModelConfig}
    (h : (model, config) ∈ FAL_MODEL_CONFIG) (params : Params) :
    constructFalPayload model params = .ok (constructOwn model config params) := by
  simp only [constructFalPayload, jsGet_of_mem h]

theorem setSourceImages_eq (params : Params) (payload : Payload) :
    setSourceImages params payload =
      { payload with
        image_url := if truthyStr params.image_url then params.image_url else payload.image_url
        image_urls :=
          if !truthyStr params.image_url && (truthyList params.imageUrls
              && decide ((params.imageUrls.getD []).length > 0))
          then params.imageUrls else payload.image_urls } := by
  unfold setSourceImages; split_ifs <;> simp_all

theorem setEditSize_eq (model : String) (config : ModelConfig) (params : Params)
    (payload : Payload) :
    setEditSize model config params payload =
      { payload with
        image_size :=
          if model == "flux-2-pro-edit" then
            if truthyStr params.aspectRatio then
              some (lookupOr aspectRatioMapEdit (strOf params.aspectRatio) "auto")
            else some (.str "auto")
          else if config.supports.customSizes && truthyStr params.imageSize then
            params.imageSize.map SizeValue.str
          else payload.image_size
        aspect_ratio :=
          if !(model == "flux-2-pro-edit")
              && !(config.supports.customSizes && truthyStr params.imageSize)
              && truthyStr params.aspectRatio
          then params.aspectRatio else payload.aspect_ratio } := by
  unfold setEditSize; split_ifs <;> simp_all

theorem setImagePromptStrength_eq (params : Params) (payload : Payload) :
    setImagePromptStrength params payload =
      { payload with
        image_prompt_strength :=
          if truthyNum params.imagePromptStrength then params.imagePromptStrength
          else payload.image_prompt_strength } := by
  unfold setImagePromptStrength; split_ifs <;> rfl

theorem setTextSize_eq (model : String) (params : Params) (payload : Payload) :
    setTextSize model params payload =
      { payload with
        image_size :=
          if model == "flux-2-pro" && truthyStr params.aspectRatio then
            some (lookupOr aspectRatioMap (strOf params.aspectRatio) "landscape_4_3")
          else payload.image_size
        aspect_ratio :=
          if !(model == "flux-2-pro") && truthyStr params.aspectRatio then params.aspectRatio
          else payload.aspect_ratio } := by
  unfold setTextSize; split_ifs <;> simp_all

theorem setResolution_eq (config : ModelConfig) (params : Params) (payload : Payload) :
    setResolution config params payload =
      { payload with
        resolution :=
          if truthyStr params.resolution && decide (config.supports.resolutions.length > 0)
          then params.resolution else payload.resolution } := by
  unfold setResolution; split_ifs <;> rfl

theorem setSafetyTolerance_eq (config : ModelConfig) (params : Params) (payload : Payload) :
    setSafetyTolerance config params payload =
      { payload with
        safety_tolerance :=
          if config.supports.safetyTolerance && truthyStr params.safety_tolerance
          then params.safety_tolerance else payload.safety_tolerance } := by
  unfold setSafetyTolerance; split_ifs <;> rfl

theorem setSeed_eq (config : ModelConfig) (params : Params) (payload : Payload) :
    setSeed config params payload =
      { payload with
        seed := if config.supports.seed && truthyInt params.seed then params.seed
          else payload.seed } := by
  unfold setSeed; split_ifs <;> rfl

theorem setEnhancePrompt_eq (config : ModelConfig) (params : Params) (payload : Payload) :
    setEnhancePrompt config params payload =
      { payload with
        enhance_prompt :=
          if config.supports.enhancePrompt && params.enhancePrompt.isSome
          then params.enhancePrompt else payload.enhance_prompt } := by
  unfold setEnhancePrompt; split_ifs <;> rfl

theorem setRaw_eq (config : ModelConfig) (params : Params) (payload : Payload) :
    setRaw config params payload =
      { payload with
        raw := if config.supports.raw && params.raw.isSome then params.raw
          else payload.raw } := by
  unfold setRaw; split_ifs <;> rfl

theorem setPassThrough_eq (params : Params) (payload : Payload) :
    setPassThrough params payload =
      { payload with
        output_format :=
          if truthyStr params.outputFormat then params.outputFormat else payload.output_format
        enable_safety_checker :=
          if params.enableSafetyChecker.isSome then params.enableSafetyChecker
          else payload.enable_safety_checker
        sync_mode := if params.syncMode.isSome then params.syncMode else payload.sync_mode } := by
  unfold setPassThrough; split_ifs <;> rfl

/-- The `image_size` field of the payload of an own entry. -/
theorem constructOwn_image_size (model : String) (config : ModelConfig) (params : Params) :
    (constructOwn model config params).image_size =
      if config.type == "image-to-image" then
        if model == "flux-2-pro-edit" then
          if truthyStr params.aspectRatio then
            some (lookupOr aspectRatioMapEdit (strOf params.aspectRatio) "auto")
          else some (.str "auto")
        else if config.supports.customSizes && truthyStr params.imageSize then
          params.imageSize.map SizeValue.str
        else none
      else if model == "flux-2-pro" && truthyStr params.aspectRatio then
        some (lookupOr aspectRatioMap (strOf params.aspectRatio) "landscape_4_3")
      else none := by
  simp only [constructOwn, setPassThrough_eq, setRaw_eq, setEnhancePrompt_eq, setSeed_eq,
    setSafetyTolerance_eq, setModelSpecific]
  split_ifs <;>
    simp_all [setImagePromptStrength_eq, setEditSize_eq, setSourceImages_eq, setTextSize_eq,
      setResolution_eq]

/-- The `resolution` field of the payload of an own entry. -/
theorem constructOwn_resolution (model : String) (config : ModelConfig) (params : Params) :
    (constructOwn model config params).resolution =
      if !(config.type == "image-to-image") && (truthyStr params.resolution
          && decide (config.supports.resolutions.length > 0))
      then params.resolution else none := by
  simp only [constructOwn, setPassThrough_eq, setRaw_eq, setEnhancePrompt_eq, setSeed_eq,
    setSafetyTolerance_eq, setModelSpecific]
  split_ifs <;>
    simp_all [setImagePromptStrength_eq, setEditSize_eq, setSourceImages_eq, setTextSize_eq,
      setResolution_eq]

/-- The capability-gated pass-through fields of the payload of an own entry. -/
theorem constructOwn_gated (model : String) (config : ModelConfig) (params : Params) :
    (constructOwn model config params).safety_tolerance =
        (if config.supports.safetyTolerance && truthyStr params.safety_tolerance
          then params.safety_tolerance else none) ∧
    (constructOwn model config params).seed =
        (if config.supports.seed && truthyInt params.seed then params.seed else none) ∧
    (constructOwn model config params).enhance_prompt =
        (if config.supports.enhancePrompt && params.enhancePrompt.isSome
          then params.enhancePrompt else none) ∧
    (constructOwn model config params).raw =
        (if config.supports.raw && params.raw.isSome then params.raw else none) := by
  simp only [constructOwn, setPassThrough_eq, setRaw_eq, setEnhancePrompt_eq, setSeed_eq,
    setSafetyTolerance_eq, setModelSpecific]
  split_ifs <;>
    simp_all [setImagePromptStrength_eq, setEditSize_eq, setSourceImages_eq, setTextSize_eq,
      setResolution_eq]

/-- The named-size translation on keys that are not inherited from `Object.prototype`:
the table value for a key of the table, the fallback for every other key. -/
theorem lookupOr_of_not_inherited (table : List (String × String)) (key fallback : String)
    (hv : ∀ v ∈ table.lookup key, v ≠ "") (hk : key ∉ objectPrototypeKeys) :
    lookupOr table key fallback = .str ((table.lookup key).getD fallback) := by
  unfold lookupOr jsGet
  cases h : table.lookup key with
  | none => simp [hk]
  | some v =>
    have : v ≠ "" := hv v (by simp [h])
    simp [this]

/-! ### Payload builder -/

/-- The translation on a key inherited from `Object.prototype`, which the validator
admits for neither named-size model: the aspect ratios `constructor` and `toString` are
not in the translation tables, and the payload built for `flux-2-pro` and for
`flux-2-pro-edit` carries as `image_size` the member of `Object.prototype` of that name,
not the fallback `landscape_4_3` or `auto`. -/
theorem named_size_inherited_key :
    aspectRatioMap.lookup "constructor" = none ∧
    Except.map (fun p => p.image_size)
        (constructFalPayload "flux-2-pro" { aspectRatio := some "constructor" })
      = .ok (some (.inherited "constructor")) ∧
    aspectRatioMapEdit.lookup "toString" = none ∧
    Except.map (fun p => p.image_size)
        (constructFalPayload "flux-2-pro-edit" { aspectRatio := some "toString" })
      = .ok (some (.inherited "toString")) :=
  ⟨by decide, by decide, by decide, by decide⟩

/-- Counterexample to claim C5 as stated: the request gives the empty string as aspect
ratio to `flux-2-pro`; the empty string is not in the translation table, so the payload
is to carry the `image_size` `landscape_4_3`, and the payload built has no `image_size`
(and no `aspect_ratio`). The validator accepts the request. -/
theorem empty_aspect_ratio_no_fallback :
    aspectRatioMap.lookup "" = none ∧
    validateModelParameters "flux-2-pro" { aspectRatio := some "" }
      = .ok { valid := true, errors := some [] } ∧
    Except.map (fun p => (p.image_size, p.aspect_ratio))
        (constructFalPayload "flux-2-pro" { aspectRatio := some "" })
      = .ok (none, none) :=
  ⟨by decide, by decide, by decide⟩

/-- Claim C5, as amended: for `flux-2-pro` a given non-empty aspect ratio that does not
name a member of `Object.prototype` is translated through the table (`1:1` to `square`,
`16:9` to `landscape_16_9`, `9:16` to `portrait_16_9`, `4:3` to `landscape_4_3`, `3:2` to
`portrait_4_3`), with the fallback `landscape_4_3` when it is not in the table; for
`flux-2-pro-edit` the payload always has an `image_size`, the value of the same table
plus `auto` to `auto` for such an aspect ratio in the table, and `auto` when such an
aspect ratio is not in the table or when the aspect ratio is absent or empty. -/
theorem named_size_translation (params : Params) :
    (∀ r, params.aspectRatio = some r → r ≠ "" → r ∉ objectPrototypeKeys →
      Except.map (fun p => p.image_size) (constructFalPayload "flux-2-pro" params)
        = .ok (some (.str ((aspectRatioMap.lookup r).getD "landscape_4_3")))) ∧
    (∀ r, params.aspectRatio = some r → r ≠ "" → r ∉ objectPrototypeKeys →
      Except.map (fun p => p.image_size) (constructFalPayload "flux-2-pro-edit" params)
        = .ok (some (.str ((aspectRatioMapEdit.lookup r).getD "auto")))) ∧
    (truthyStr params.aspectRatio = false →
      Except.map (fun p => p.image_size) (constructFalPayload "flux-2-pro-edit" params)
        = .ok (some (.str "auto"))) ∧
    (∃ payload size, constructFalPayload "flux-2-pro-edit" params = .ok payload ∧
      payload.image_size = some size) ∧
    aspectRatioMap = [("1:1", "square"), ("16:9", "landscape_16_9"), ("9:16", "portrait_16_9"),
      ("4:3", "landscape_4_3"), ("3:2", "portrait_4_3")] ∧
    aspectRatioMapEdit = aspectRatioMap ++ [("auto", "auto")] := by
  have hv1 : ∀ r, ∀ v ∈ aspectRatioMap.lookup r, v ≠ "" := by
    intro r v hv
    simp only [aspectRatioMap, List.lookup] at hv
    split at hv <;> try (simp at hv; subst hv; decide)
    split at hv <;> try (simp at hv; subst hv; decide)
    split at hv <;> try (simp at hv; subst hv; decide)
    split at hv <;> try (simp at hv; subst hv; decide)
    split at hv <;> try (simp at hv; subst hv; decide)
    simp at hv
  have hv2 : ∀ r, ∀ v ∈ aspectRatioMapEdit.lookup r, v ≠ "" := by
    intro r v hv
    simp only [aspectRatioMapEdit, List.lookup] at hv
    split at hv <;> try (simp at hv; subst hv; decide)
    split at hv <;> try (simp at hv; subst hv; decide)
    split at hv <;> try (simp at hv; subst hv; decide)
    split at hv <;> try (simp at hv; subst hv; decide)
    split at hv <;> try (simp at hv; subst hv; decide)
    split at hv <;> try (simp at hv; subst hv; decide)
    simp at hv
  have hmemEdit : ("flux-2-pro-edit", (FAL_MODEL_CONFIG.lookup "flux-2-pro-edit").get (by decide))
      ∈ FAL_MODEL_CONFIG := by decide
  have htEdit : ((FAL_MODEL_CONFIG.lookup "flux-2-pro-edit").get (by decide)).type
      = "image-to-image" := by decide
  refine ⟨?_, ?_, ?_, ?_, by decide, by decide⟩
  · intro r hp hne hk
    have hmem : ("flux-2-pro", (FAL_MODEL_CONFIG.lookup "flux-2-pro").get (by decide))
        ∈ FAL_MODEL_CONFIG := by decide
    rw [construct_of_mem hmem]
    simp only [Except.map, constructOwn_image_size]
    have ht : ((FAL_MODEL_CONFIG.lookup "flux-2-pro").get (by decide)).type = "text-to-image" := by
      decide
    simp [ht, hp, truthyStr, hne, strOf, lookupOr_of_not_inherited _ _ _ (hv1 r) hk]
  · intro r hp hne hk
    rw [construct_of_mem hmemEdit]
    simp only [Except.map, constructOwn_image_size]
    simp [htEdit, hp, truthyStr, hne, strOf, lookupOr_of_not_inherited _ _ _ (hv2 r) hk]
  · intro hp
    rw [construct_of_mem hmemEdit]
    simp only [Except.map, constructOwn_image_size]
    simp [htEdit, hp]
  · refine ⟨_, if truthyStr params.aspectRatio then
        lookupOr aspectRatioMapEdit (strOf params.aspectRatio) "auto" else .str "auto",
      construct_of_mem hmemEdit params, ?_⟩
    rw [constructOwn_image_size]
    simp only [htEdit, beq_self_eq_true, if_true]
    split_ifs <;> rfl

/-- Witness of C5 as amended: `flux-2-pro` translates `16:9` to `landscape_16_9` and the
aspect ratio `21:9`, which is not in the table, to the fallback `landscape_4_3`. -/
theorem named_size_translation_witness :
    Except.map (fun p => p.image_size)
        (constructFalPayload "flux-2-pro" { aspectRatio := some "16:9" })
      = .ok (some (.str "landscape_16_9")) ∧
    Except.map (fun p => p.image_size)
        (constructFalPayload "flux-2-pro" { aspectRatio := some "21:9" })
      = .ok (some (.str "landscape_4_3")) :=
  ⟨(named_size_translation { aspectRatio := some "16:9" }).1 "16:9" rfl (by decide) (by decide),
   (named_size_translation { aspectRatio := some "21:9" }).1 "21:9" rfl (by decide) (by decide)⟩

/-- Claim C6: for every model of `FAL_MODEL_CONFIG` and every request, validated or not,
`constructFalPayload` returns a payload that has `safety_tolerance` only if
`supports.safetyTolerance` is true and the request gave one, `seed` only if
`supports.seed` is true and the request gave one, `enhance_prompt` only if
`supports.enhancePrompt` is true and the request gave the flag, `raw` only if
`supports.raw` is true and the request gave the flag, and `resolution` only if
`supports.resolutions` is non-empty and the request gave one; a field that is present
holds the value of the request. -/
theorem payload_gated_fields (model : String) (config : ModelConfig) (params : Params)
    (hm : (model, config) ∈ FAL_MODEL_CONFIG) :
    ∃ payload, constructFalPayload model params = .ok payload ∧
      (payload.safety_tolerance ≠ none → config.supports.safetyTolerance = true ∧
        params.safety_tolerance ≠ none ∧ payload.safety_tolerance = params.safety_tolerance) ∧
      (payload.seed ≠ none → config.supports.seed = true ∧
        params.seed ≠ none ∧ payload.seed = params.seed) ∧
      (payload.enhance_prompt ≠ none → config.supports.enhancePrompt = true ∧
        params.enhancePrompt ≠ none ∧ payload.enhance_prompt = params.enhancePrompt) ∧
      (payload.raw ≠ none → config.supports.raw = true ∧
        params.raw ≠ none ∧ payload.raw = params.raw) ∧
      (payload.resolution ≠ none → config.supports.resolutions ≠ [] ∧
        params.resolution ≠ none ∧ payload.resolution = params.resolution) := by
  refine ⟨_, construct_of_mem hm params, ?_, ?_, ?_, ?_, ?_⟩
  · rw [(constructOwn_gated model config params).1]
    split_ifs with h
    · intro hne; simp at h; exact ⟨h.1, hne, rfl⟩
    · intro hne; exact absurd rfl hne
  · rw [(constructOwn_gated model config params).2.1]
    split_ifs with h
    · intro hne; simp at h; exact ⟨h.1, hne, rfl⟩
    · intro hne; exact absurd rfl hne
  · rw [(constructOwn_gated model config params).2.2.1]
    split_ifs with h
    · intro hne; simp at h; exact ⟨h.1, hne, rfl⟩
    · intro hne; exact absurd rfl hne
  · rw [(constructOwn_gated model config params).2.2.2]
    split_ifs with h
    · intro hne; simp at h; exact ⟨h.1, hne, rfl⟩
    · intro hne; exact absurd rfl hne
  · rw [constructOwn_resolution]
    split_ifs with h
    · intro hne
      simp at h
      refine ⟨?_, hne, rfl⟩
      intro hnil
      rw [hnil] at h
      simp at h
    · intro hne; exact absurd rfl hne

/-- Witness of C6: `imagen4-preview` with a seed, a safety tolerance and a resolution. -/
theorem payload_gated_fields_witness :
    ∃ payload, constructFalPayload "imagen4-preview"
        { seed := some 7, safety_tolerance := some "2", resolution := some "2K" }
        = .ok payload ∧ payload.seed = none ∧ payload.safety_tolerance = none ∧
      payload.resolution = some "2K" := by
  obtain ⟨payload, h, h1, h2, _, _, _⟩ := payload_gated_fields "imagen4-preview"
    ((FAL_MODEL_CONFIG.lookup "imagen4-preview").get (by decide))
    { seed := some 7, safety_tolerance := some "2", resolution := some "2K" } (by decide)
  refine ⟨payload, h, ?_, ?_, ?_⟩
  · by_contra hne
    exact absurd (h2 hne).1 (by decide)
  · by_contra hne
    exact absurd (h1 hne).1 (by decide)
  · have h' : constructFalPayload "imagen4-preview"
        { seed := some 7, safety_tolerance := some "2", resolution := some "2K" }
        = .ok (constructOwn "imagen4-preview"
            ((FAL_MODEL_CONFIG.lookup "imagen4-preview").get (by decide))
            { seed := some 7, safety_tolerance := some "2", resolution := some "2K" }) :=
      construct_of_mem (by decide) _
    rw [h'] at h
    cases h
    decide

/-! ### Request validator: the rules -/

/-- A message that does not begin with `Invalid aspect ratio` is no aspect-ratio error. -/
theorem hasAspectRatioError_append (xs ys : List String) :
    hasAspectRatioError (xs ++ ys) = (hasAspectRatioError xs || hasAspectRatioError ys) := by
  simp [hasAspectRatioError]

theorem hasAspectRatioError_false {xs : List String}
    (h : ∀ e ∈ xs, "Invalid aspect ratio".data.isPrefixOf e.data = false) :
    hasAspectRatioError xs = false := by
  simp only [hasAspectRatioError, List.any_eq_false]
  intro e he
  simp [h e he]

/-- Apart from the aspect-ratio check, no check adds an aspect-ratio error. -/
theorem hasAspectRatioError_ownErrors (model : String) (config : ModelConfig)
    (params : Params) :
    hasAspectRatioError (ownErrors model config params)
      = hasAspectRatioError (checkAspectRatio model config params []) := by
  have h2 : hasAspectRatioError (checkResolution model config params []) = false :=
    hasAspectRatioError_false (fun e he => by
      obtain ⟨rest, hr⟩ := mem_checkResolution he
      subst hr; simp [String.data_append, List.isPrefixOf])
  have h3 : hasAspectRatioError (checkOutputFormat model config params []) = false :=
    hasAspectRatioError_false (fun e he => by
      obtain ⟨rest, hr⟩ := mem_checkOutputFormat he
      subst hr; simp [String.data_append, List.isPrefixOf])
  have h4 : hasAspectRatioError (checkSafetyTolerance model config params []) = false :=
    hasAspectRatioError_false (fun e he => by
      rw [mem_checkSafetyTolerance he]; simp [String.data_append, List.isPrefixOf])
  have h5 : hasAspectRatioError (checkSeed model config params []) = false :=
    hasAspectRatioError_false (fun e he => by
      rw [mem_checkSeed he]; simp [String.data_append, List.isPrefixOf])
  have h6 : hasAspectRatioError (checkImageUrls model params []) = false :=
    hasAspectRatioError_false (fun e he => by
      rw [mem_checkImageUrls he]; simp [String.data_append, List.isPrefixOf])
  have h7 : hasAspectRatioError (checkMultiImage model config params []) = false :=
    hasAspectRatioError_false (fun e he => by
      rw [mem_checkMultiImage he]; simp [String.data_append, List.isPrefixOf])
  have h0 : hasAspectRatioError ([] : List String) = false := rfl
  unfold ownErrors
  split_ifs <;>
    simp [hasAspectRatioError_append, h2, h3, h4, h5, h6, h7, h0]

/-- The aspect-ratio check adds an aspect-ratio error exactly when it adds a message. -/
theorem hasAspectRatioError_check (model : String) (config : ModelConfig) (params : Params) :
    hasAspectRatioError (checkAspectRatio model config params []) = true
      ↔ checkAspectRatio model config params [] ≠ [] := by
  unfold checkAspectRatio
  split_ifs <;> simp [hasAspectRatioError, String.data_append, List.isPrefixOf]

/-- Claim C7, as amended: for every model of `FAL_MODEL_CONFIG` (named by its string
identifier) and every request, `validateModelParameters` returns an error list in which,
when the request gives a non-empty aspect ratio `r`, an aspect-ratio error is present if
and only if `r` is not one of `1:1`, `16:9`, `9:16`, `4:3`, `3:2` for the models
`flux-2-pro` and `flux-2-pro-edit`, whatever their own `supports.aspectRatios`, and if
and only if `supports.aspectRatios` is non-empty and does not contain `r` for every other
model; a request whose aspect ratio is absent or empty gets no aspect-ratio error. -/
theorem aspect_ratio_rule (model : String) (config : ModelConfig) (params : Params)
    (hm : (model, config) ∈ FAL_MODEL_CONFIG) :
    ∃ valid errors, validateModelParameters model params
        = .ok { valid := valid, errors := some errors } ∧
      (∀ r, params.aspectRatio = some r → r ≠ "" →
        (hasAspectRatioError errors = true ↔
          if model = "flux-2-pro" ∨ model = "flux-2-pro-edit" then
            r ∉ ["1:1", "16:9", "9:16", "4:3", "3:2"]
          else config.supports.aspectRatios ≠ [] ∧ r ∉ config.supports.aspectRatios)) ∧
      (truthyStr params.aspectRatio = false → hasAspectRatioError errors = false) := by
  rw [validate_of_mem hm, validateOwn_eq]
  refine ⟨_, _, rfl, ?_, ?_⟩
  · intro r hp hne
    rw [hasAspectRatioError_ownErrors, hasAspectRatioError_check]
    unfold checkAspectRatio
    by_cases hn : model = "flux-2-pro" ∨ model = "flux-2-pro-edit"
    · rw [if_pos hn]
      by_cases hr : r ∈ validRatios
      · have hr' := hr
        simp only [validRatios] at hr'
        simp [hp, truthyStr, hne, strOf, hn, hr, hr']
      · have hr' := hr
        simp only [validRatios] at hr'
        simp [hp, truthyStr, hne, strOf, hn, hr, hr']
    · rw [if_neg hn]
      by_cases hl : config.supports.aspectRatios = []
      · simp [hp, truthyStr, hne, strOf, hn, hl]
      · have hpos : 0 < config.supports.aspectRatios.length := List.length_pos.mpr hl
        by_cases hr : r ∈ config.supports.aspectRatios
        · simp [hp, truthyStr, hne, strOf, hn, hl, hpos, hr]
        · simp [hp, truthyStr, hne, strOf, hn, hl, hpos, hr]
  · intro hp
    rw [hasAspectRatioError_ownErrors]
    unfold checkAspectRatio
    simp [hp, hasAspectRatioError]

/-- Witness of C7 as amended: `flux-2-pro-edit` rejects the aspect ratio `auto`, which its own
`supports.aspectRatios` declares. -/
theorem aspect_ratio_rule_witness :
    ∃ valid errors, validateModelParameters "flux-2-pro-edit" { aspectRatio := some "auto" }
        = .ok { valid := valid, errors := some errors } ∧
      hasAspectRatioError errors = true := by
  obtain ⟨valid, errors, h, h1, _⟩ := aspect_ratio_rule "flux-2-pro-edit"
    ((FAL_MODEL_CONFIG.lookup "flux-2-pro-edit").get (by decide))
    { aspectRatio := some "auto" } (by decide)
  exact ⟨valid, errors, h, (h1 "auto" rfl (by decide)).mpr (by decide)⟩

/-- Counterexample to claim C7 as stated: the request gives the empty string as aspect
ratio. The empty string is not one of the five ratios, so `flux-2-pro` is to report an
aspect-ratio error; and `imagen4-preview` declares a non-empty list that does not hold
the empty string, so it is to report one too. Both requests are valid, with an empty
error list. -/
theorem empty_aspect_ratio_accepted :
    "" ∉ ["1:1", "16:9", "9:16", "4:3", "3:2"] ∧
    validateModelParameters "flux-2-pro" { aspectRatio := some "" }
      = .ok { valid := true, errors := some [] } ∧
    (∃ config, ("imagen4-preview", config) ∈ FAL_MODEL_CONFIG ∧
      config.supports.aspectRatios ≠ [] ∧ "" ∉ config.supports.aspectRatios) ∧
    validateModelParameters "imagen4-preview" { aspectRatio := some "" }
      = .ok { valid := true, errors := some [] } ∧
    hasAspectRatioError [] = false :=
  ⟨by decide, by decide,
   ⟨(FAL_MODEL_CONFIG.lookup "imagen4-preview").get (by decide), by decide, by decide, by decide⟩,
   by decide, by decide⟩

/-- On a request that gives no falsy value and no empty `imageUrls` list, the seven
checks add the messages the specification prescribes. -/
theorem ownErrors_eq_specErrors (model : String) (config : ModelConfig) (params : Params)
    (hfalsy : params.noFalsyValue) (hurls : params.imageUrls ≠ some []) :
    ownErrors model config params = specErrors model config params := by
  obtain ⟨hratio, hres, hfmt, htol, hseed, hurl⟩ := hfalsy
  have h1 : checkAspectRatio model config params [] =
      (if aspectRatioViolated model config params then
        ["Invalid aspect ratio \"" ++ strOf params.aspectRatio ++ "\" for " ++ model
          ++ ". Supported: " ++
          (if model = "flux-2-pro" ∨ model = "flux-2-pro-edit" then "1:1, 16:9, 9:16, 4:3, 3:2"
            else join config.supports.aspectRatios ", ")]
        else []) := by
    unfold checkAspectRatio aspectRatioViolated
    have hj : join validRatios ", " = "1:1, 16:9, 9:16, 4:3, 3:2" := by decide
    cases hp : params.aspectRatio with
    | none => simp [truthyStr]
    | some r =>
      have hne : r ≠ "" := fun h0 => hratio (by rw [hp, h0])
      by_cases hn : model = "flux-2-pro" ∨ model = "flux-2-pro-edit"
      · by_cases hr : r ∈ validRatios
        · have hr' := hr
          simp only [validRatios] at hr'
          simp [truthyStr, hne, hn, strOf, hr, hr']
        · have hr' := hr
          simp only [validRatios] at hr'
          simp [truthyStr, hne, hn, strOf, hr, hr', hj]
      · by_cases hl : config.supports.aspectRatios = []
        · simp [truthyStr, hne, hn, strOf, hl]
        · have hpos : 0 < config.supports.aspectRatios.length := List.length_pos.mpr hl
          by_cases hr : r ∈ config.supports.aspectRatios
          · simp [truthyStr, hne, hn, strOf, hl, hpos, hr]
          · simp [truthyStr, hne, hn, strOf, hl, hpos, hr]
  have h2 : checkResolution model config params [] =
      (if resolutionViolated config params then
        ["Invalid resolution \"" ++ strOf params.resolution ++ "\" for " ++ model
          ++ ". Supported: " ++ join config.supports.resolutions ", "]
        else []) := by
    unfold checkResolution resolutionViolated
    cases hp : params.resolution with
    | none => simp [truthyStr]
    | some r =>
      have hne : r ≠ "" := fun h0 => hres (by rw [hp, h0])
      by_cases hr : r ∈ config.supports.resolutions <;> simp [truthyStr, hne, strOf, hr]
  have h3 : checkOutputFormat model config params [] =
      (if outputFormatViolated config params then
        ["Invalid output format \"" ++ strOf params.outputFormat ++ "\" for " ++ model
          ++ ". Supported: " ++ join config.supports.outputFormats ", "]
        else []) := by
    unfold checkOutputFormat outputFormatViolated
    cases hp : params.outputFormat with
    | none => simp [truthyStr]
    | some r =>
      have hne : r ≠ "" := fun h0 => hfmt (by rw [hp, h0])
      by_cases hr : r ∈ config.supports.outputFormats <;> simp [truthyStr, hne, strOf, hr]
  have h4 : checkSafetyTolerance model config params [] =
      (if safetyToleranceViolated config params then
        ["Model " ++ model ++ " does not support safety_tolerance parameter"] else []) := by
    unfold checkSafetyTolerance safetyToleranceViolated
    cases hp : params.safety_tolerance with
    | none => simp [truthyStr]
    | some r =>
      have hne : r ≠ "" := fun h0 => htol (by rw [hp, h0])
      cases hs : config.supports.safetyTolerance <;> simp [truthyStr, hne]
  have h5 : checkSeed model config params [] =
      (if seedViolated config params then
        ["Model " ++ model ++ " does not support seed parameter"] else []) := by
    unfold checkSeed seedViolated
    cases hp : params.seed with
    | none => simp [truthyInt]
    | some n =>
      have hn : n ≠ 0 := fun h0 => hseed (by rw [hp, h0])
      cases hs : config.supports.seed <;> simp [truthyInt, hn]
  have h6 : (if config.type = "image-to-image" then
        checkImageUrls model params [] ++ checkMultiImage model config params [] else []) =
      (if sourceMissing config params then ["Model " ++ model ++ " requires image URLs"]
        else []) ++
      (if multiImageViolated config params then
        ["Model " ++ model ++ " does not support multiple input images"] else []) := by
    unfold sourceMissing multiImageViolated checkImageUrls checkMultiImage
    by_cases ht : config.type = "image-to-image"
    · cases hu : params.image_url with
      | none =>
        cases hp : params.imageUrls with
        | none => simp [ht, truthyList, truthyStr]
        | some us =>
          have hus : us ≠ [] := fun h0 => hurls (by rw [hp, h0])
          simp [ht, truthyList, truthyStr, hus]
      | some u =>
        have hne : u ≠ "" := fun h0 => hurl (by rw [hu, h0])
        cases hp : params.imageUrls with
        | none => simp [ht, truthyList, truthyStr, hne]
        | some us =>
          have hus : us ≠ [] := fun h0 => hurls (by rw [hp, h0])
          simp [ht, truthyList, truthyStr, hne, hus]
    · simp [ht]
  unfold ownErrors specErrors
  rw [h1, h2, h3, h4, h5, h6]
  simp only [List.append_assoc]

/-- Claim C8, as amended: for every model of `FAL_MODEL_CONFIG` and every request that
gives no falsy value (no empty string as aspect ratio, resolution, output format, safety
tolerance or source URL, and not the seed 0) and no empty `imageUrls` list,
`validateModelParameters` collects all errors: the error list is `specErrors`, one
message for each violated rule in the order aspect ratio, resolution, output format,
safety tolerance, seed, missing source image, multiple source images; and `valid` is
true if and only if that list is empty. -/
theorem errors_collected (model : String) (config : ModelConfig) (params : Params)
    (hm : (model, config) ∈ FAL_MODEL_CONFIG)
    (hfalsy : params.noFalsyValue) (hurls : params.imageUrls ≠ some []) :
    ∃ valid, validateModelParameters model params
        = .ok { valid := valid, errors := some (specErrors model config params) } ∧
      (valid = true ↔ specErrors model config params = []) := by
  rw [validate_of_mem hm, validateOwn_eq, ownErrors_eq_specErrors model config params hfalsy hurls]
  refine ⟨_, rfl, ?_⟩
  cases specErrors model config params <;> simp

/-- Witness of C8 as amended: `imagen4-preview` with an unsupported aspect ratio, an
unsupported resolution, a seed and a safety tolerance gets four messages, in order. -/
theorem errors_collected_witness :
    ∃ valid, validateModelParameters "imagen4-preview"
        { aspectRatio := some "21:9", resolution := some "4K", seed := some 7,
          safety_tolerance := some "2" }
        = .ok { valid := valid
                errors := some
                  ["Invalid aspect ratio \"21:9\" for imagen4-preview. Supported: 1:1, 16:9, 9:16, 4:3, 3:4",
                   "Invalid resolution \"4K\" for imagen4-preview. Supported: 1K, 2K",
                   "Model imagen4-preview does not support safety_tolerance parameter",
                   "Model imagen4-preview does not support seed parameter"] } ∧
      (valid = true ↔
        specErrors "imagen4-preview" ((FAL_MODEL_CONFIG.lookup "imagen4-preview").get (by decide))
          { aspectRatio := some "21:9", resolution := some "4K", seed := some 7,
            safety_tolerance := some "2" } = []) :=
  errors_collected "imagen4-preview"
    ((FAL_MODEL_CONFIG.lookup "imagen4-preview").get (by decide))
    { aspectRatio := some "21:9", resolution := some "4K", seed := some 7,
      safety_tolerance := some "2" } (by decide)
    ⟨by decide, by decide, by decide, by decide, by decide, by decide⟩ (by decide)

/-- Counterexample to claim C8 as stated: for `imagen4-preview` and a request that gives
the seed 0 the seed rule is violated (the model has no seed support), so the prescribed
list holds the seed message, and `validateModelParameters` returns an empty list;
likewise for `flux-2-pro`, which declares no resolution, and a request that gives the
empty string as resolution. -/
theorem seed_zero_not_collected :
    (∃ config, ("imagen4-preview", config) ∈ FAL_MODEL_CONFIG ∧
      specErrors "imagen4-preview" config { seed := some 0 }
        = ["Model imagen4-preview does not support seed parameter"] ∧
      validateModelParameters "imagen4-preview" { seed := some 0 }
        = .ok { valid := true, errors := some [] }) ∧
    (∃ config, ("flux-2-pro", config) ∈ FAL_MODEL_CONFIG ∧
      specErrors "flux-2-pro" config { resolution := some "" }
        = ["Invalid resolution \"\" for flux-2-pro. Supported: "] ∧
      validateModelParameters "flux-2-pro" { resolution := some "" }
        = .ok { valid := true, errors := some [] }) :=
  ⟨⟨(FAL_MODEL_CONFIG.lookup "imagen4-preview").get (by decide), by decide, by decide,
      by decide⟩,
   ⟨(FAL_MODEL_CONFIG.lookup "flux-2-pro").get (by decide), by decide, by decide, by decide⟩⟩

/-! ### Unknown models and the job driver -/

/-- A model identifier that is no own key of the table reads as an inherited member or
as `undefined`. -/
theorem jsGet_of_not_key {model : String} (h : FAL_MODEL_CONFIG.lookup model = none) :
    jsGet FAL_MODEL_CONFIG model
      = if objectPrototypeKeys.contains model then .inherited model else .undefined := by
  simp only [jsGet, h]

/-- For a model identifier that is no own key of the table, the payload builder throws. -/
theorem construct_of_not_key {model : String} (h : FAL_MODEL_CONFIG.lookup model = none)
    (params : Params) : ∃ e, constructFalPayload model params = .error e := by
  simp only [constructFalPayload, jsGet_of_not_key h]
  split_ifs <;> exact ⟨_, rfl⟩

/-- The part of C9 the code does: for a model identifier that neither is a key of
`FAL_MODEL_CONFIG` nor names a member of `Object.prototype`, `validateModelParameters`
returns `valid = false` with the error `Unsupported model`; and for every model
identifier that is not a key, neither endpoint issues an upstream call: the single
generation ends without a record and the batch slot is a failure. -/
theorem unknown_model_no_upstream_call (env : Env) (up : Upstream) (req : Params)
    (h : FAL_MODEL_CONFIG.lookup (strOf req.model) = none) :
    (strOf req.model ∉ objectPrototypeKeys → ∀ params,
      validateModelParameters (strOf req.model) params
        = .ok { valid := false, error := some ("Unsupported model: " ++ strOf req.model) }) ∧
    (generate env up req).2 = [] ∧ (∀ record, (generate env up req).1 ≠ .ok record) ∧
    (bulkSlot env up req).2 = [] ∧ (∃ error params, (bulkSlot env up req).1 = .failure error params) := by
  obtain ⟨e, he⟩ := construct_of_not_key h (payloadParams req)
  obtain ⟨e', he'⟩ := construct_of_not_key h req
  refine ⟨?_, ?_, ?_, ?_, ?_⟩
  · intro hk params
    simp [validateModelParameters, jsGet_of_not_key h, hk]
  · unfold generate
    rw [he, jsGet_of_not_key h]
    split_ifs <;> try rfl
    (repeat' split) <;> first | rfl | simp_all
  · intro record
    unfold generate
    rw [he, jsGet_of_not_key h]
    split_ifs <;> try simp
    (repeat' split) <;> simp_all
  · unfold bulkSlot
    simp only [he', jsGet_of_not_key h]
    (repeat' split) <;> rfl
  · unfold bulkSlot
    simp only [he', jsGet_of_not_key h]
    (repeat' split) <;> exact ⟨_, _, rfl⟩

/-- Claim C9, the code at the failing input: `constructor` is not a key of
`FAL_MODEL_CONFIG`, yet `validateModelParameters` returns `valid = true` without an
error for it; the single-generation handler does not reject the request but throws
outside its `try`, and the batch slot fails with the message of that `TypeError`;
no upstream call is issued. -/
theorem inherited_model_accepted :
    FAL_MODEL_CONFIG.lookup "constructor" = none ∧
    validateModelParameters "constructor" { } = .ok { valid := true, errors := some [] } ∧
    (∀ (env : Env) (up : Upstream), env.falKey = true →
      generate env up { model := some "constructor", prompt := some "a cat" }
        = (.unhandled (.typeError "numImages"), [])) ∧
    (∀ (env : Env) (up : Upstream),
      bulkSlot env up { model := some "constructor", prompt := some "a cat" }
        = (.failure "Cannot read properties of undefined (reading \x27numImages\x27)" none,
            [])) := by
  refine ⟨by decide, by decide, ?_, ?_⟩
  · intro env up hk
    simp only [generate, hk]
    rfl
  · intro env up
    rfl

/-- Claim C10: for every job whose submit call returns a non-success response, with
status code `s` and body `b`, the job ends with the thrown error
`Fal.ai submission failed: s b`, a message that contains both `s` and `b`, and the only
upstream call issued is the submit call: no status poll is performed. -/
theorem submit_failure_no_poll (up : Upstream) (config : ModelConfig) (falBody : Payload)
    (submitResponse : SubmitResponse)
    (hs : up.submit config.submitUrl falBody = .ok submitResponse)
    (hok : submitResponse.ok = false) :
    runJob up config falBody
      = (.error (.error ("Fal.ai submission failed: " ++ toString submitResponse.status ++ " "
          ++ submitResponse.text)), [Call.submit config.submitUrl falBody]) ∧
    (∃ pre post, "Fal.ai submission failed: " ++ toString submitResponse.status ++ " "
        ++ submitResponse.text = pre ++ toString submitResponse.status ++ post) ∧
    (∃ pre post, "Fal.ai submission failed: " ++ toString submitResponse.status ++ " "
        ++ submitResponse.text = pre ++ submitResponse.text ++ post) ∧
    (∀ url, Call.status url ∉ (runJob up config falBody).2) := by
  have hrun : runJob up config falBody
      = (.error (.error ("Fal.ai submission failed: " ++ toString submitResponse.status ++ " "
          ++ submitResponse.text)), [Call.submit config.submitUrl falBody]) := by
    simp [runJob, hs, hok]
  refine ⟨hrun, ⟨"Fal.ai submission failed: ", " " ++ submitResponse.text, ?_⟩,
    ⟨"Fal.ai submission failed: " ++ toString submitResponse.status ++ " ", "", ?_⟩, ?_⟩
  · simp only [String.append_assoc]
  · simp
  · intro url
    rw [hrun]
    simp

/-- Witness of C10: an upstream that answers the submit call with status 500 and the
body `boom`. -/
theorem submit_failure_no_poll_witness :
    runJob
        { submit := fun _ _ => .ok { status := 500, text := "boom", json := .error "no json" }
          status := fun _ _ => .error "unreachable" }
        ((FAL_MODEL_CONFIG.lookup "flux-2-pro").get (by decide))
        { num_images := 1 }
      = (.error (.error "Fal.ai submission failed: 500 boom"),
          [Call.submit "https://queue.fal.run/fal-ai/flux-2-pro" { num_images := 1 }]) :=
  (submit_failure_no_poll
    { submit := fun _ _ => .ok { status := 500, text := "boom", json := .error "no json" }
      status := fun _ _ => .error "unreachable" }
    ((FAL_MODEL_CONFIG.lookup "flux-2-pro").get (by decide))
    { num_images := 1 }
    { status := 500, text := "boom", json := .error "no json" } rfl (by decide)).1

/-! ### Polling -/

/-- The polling loop issues at most as many status calls as it has iterations left. -/
theorem pollLoop_calls_le (up : Upstream) (statusUrl : String) :
    ∀ (remaining i : Nat), (pollLoop up statusUrl remaining i).2.length ≤ remaining := by
  intro remaining
  induction remaining with
  | zero => intro i; simp [pollLoop]
  | succ n ih =>
    intro i
    have h := ih (i + 1)
    unfold pollLoop
    split
    · simp
    · split_ifs
      · split
        · simp
        · split
          · simp
          · split_ifs
            · simp
            · simp; omega
      · simp; omega

/-- Every call the polling loop issues is a status call to the status URL. -/
theorem pollLoop_calls_status (up : Upstream) (statusUrl : String) :
    ∀ (remaining i : Nat), ∀ c ∈ (pollLoop up statusUrl remaining i).2,
      c = Call.status statusUrl := by
  intro remaining
  induction remaining with
  | zero => intro i c hc; simp [pollLoop] at hc
  | succ n ih =>
    intro i c hc
    have h := ih (i + 1) c
    unfold pollLoop at hc
    split at hc
    · simpa using hc
    · split_ifs at hc
      · split at hc
        · simpa using hc
        · split at hc
          · simpa using hc
          · split_ifs at hc
            · simpa using hc
            · simp only [List.mem_cons] at hc
              rcases hc with hc | hc
              · exact hc
              · exact h hc
      · simp only [List.mem_cons] at hc
        rcases hc with hc | hc
        · exact hc
        · exact h hc

/-- One iteration of the polling loop on a response that decides nothing: the loop
goes on to the next iteration. -/
theorem pollLoop_skip (up : Upstream) (statusUrl : String) (n i : Nat) (r : StatusResponse)
    (hr : up.status statusUrl i = .ok r) (hp : r.parses) (hd : pollDecision r = none) :
    pollLoop up statusUrl (n + 1) i
      = ((pollLoop up statusUrl n (i + 1)).1,
          Call.status statusUrl :: (pollLoop up statusUrl n (i + 1)).2) := by
  rw [pollLoop]
  simp only [hr]
  by_cases hs : r.status = 200
  · obtain ⟨data, hj⟩ := hp hs
    rcases himg : data.images with _ | (_ | ⟨first, rest⟩)
    · by_cases hf : data.status = some "FAILED" ∨ data.status = some "CANCELLED"
      · simp [pollDecision, hs, hj, himg, hf] at hd
      · simp only [not_or] at hf
        simp [hs, hj, himg, hf.1, hf.2]
    · by_cases hf : data.status = some "FAILED" ∨ data.status = some "CANCELLED"
      · simp [pollDecision, hs, hj, himg, hf] at hd
      · simp only [not_or] at hf
        simp [hs, hj, himg, hf.1, hf.2]
    · simp [pollDecision, hs, hj, himg] at hd
  · simp [hs]

/-- One iteration of the polling loop on a response that decides success: the loop is
left with the first element of the image list. -/
theorem pollLoop_found (up : Upstream) (statusUrl : String) (n i : Nat) (r : StatusResponse)
    (first : Option Image) (hr : up.status statusUrl i = .ok r)
    (hd : pollDecision r = some (.succeeded first)) :
    pollLoop up statusUrl (n + 1) i = (.found first, [Call.status statusUrl]) := by
  rw [pollLoop]
  simp only [hr]
  by_cases hs : r.status = 200
  · cases hj : r.json with
    | error e => simp [pollDecision, hs, hj] at hd
    | ok data =>
      rcases himg : data.images with _ | (_ | ⟨first, rest⟩)
      · by_cases hf : data.status = some "FAILED" ∨ data.status = some "CANCELLED" <;>
          simp [pollDecision, hs, hj, himg, hf] at hd
      · by_cases hf : data.status = some "FAILED" ∨ data.status = some "CANCELLED" <;>
          simp [pollDecision, hs, hj, himg, hf] at hd
      · simp [pollDecision, hs, hj, himg] at hd
        simp [hs, himg, hd]
  · simp [pollDecision, hs] at hd

/-- One iteration of the polling loop on a response that decides failure. -/
theorem pollLoop_failed (up : Upstream) (statusUrl : String) (n i : Nat) (r : StatusResponse)
    (s : String) (hr : up.status statusUrl i = .ok r)
    (hd : pollDecision r = some (.failed s)) :
    pollLoop up statusUrl (n + 1) i
        = (.thrown (.error ("Generation " ++ s)), [Call.status statusUrl]) ∧
      (s = "FAILED" ∨ s = "CANCELLED") := by
  rw [pollLoop]
  simp only [hr]
  by_cases hs : r.status = 200
  · cases hj : r.json with
    | error e => simp [pollDecision, hs, hj] at hd
    | ok data =>
      rcases himg : data.images with _ | (_ | ⟨first, rest⟩)
      · by_cases hf : data.status = some "FAILED" ∨ data.status = some "CANCELLED"
        · simp [pollDecision, hs, hj, himg, hf] at hd
          subst hd
          rcases hf with hf | hf <;> simp [hs, himg, hf, strOf]
        · simp [pollDecision, hs, hj, himg, hf] at hd
      · by_cases hf : data.status = some "FAILED" ∨ data.status = some "CANCELLED"
        · simp [pollDecision, hs, hj, himg, hf] at hd
          subst hd
          rcases hf with hf | hf <;> simp [hs, himg, hf, strOf]
        · simp [pollDecision, hs, hj, himg, hf] at hd
      · simp [pollDecision, hs, hj, himg] at hd
  · simp [pollDecision, hs] at hd

/-- The polling loop steps over a run of `k` responses that decide nothing. -/
theorem pollLoop_skips (up : Upstream) (statusUrl : String) (responses : Nat → StatusResponse) :
    ∀ (k n i : Nat),
      (∀ j, j < k → up.status statusUrl (i + j) = .ok (responses (i + j)) ∧
        (responses (i + j)).parses ∧ pollDecision (responses (i + j)) = none) →
      pollLoop up statusUrl (k + n) i
        = ((pollLoop up statusUrl n (i + k)).1,
            List.replicate k (Call.status statusUrl) ++ (pollLoop up statusUrl n (i + k)).2) := by
  intro k
  induction k with
  | zero => intro n i _; simp
  | succ k ih =>
    intro n i h
    obtain ⟨h0, h1, h2⟩ := h 0 (by omega)
    have hstep := pollLoop_skip up statusUrl (k + n) i (responses (i + 0)) h0 h1 h2
    have hrest := ih n (i + 1) (fun j hj => by
      have := h (j + 1) (by omega)
      have e : i + (j + 1) = i + 1 + j := by omega
      rw [e] at this
      exact this)
    have e1 : k + 1 + n = k + n + 1 := by omega
    have e2 : i + 1 + k = i + (k + 1) := by omega
    rw [e1, hstep, hrest, e2]
    simp [List.replicate_succ]

/-- A job whose submission is accepted ends as its polling loop ends; the test after
the loop turns a falsy `result` into the time-out error. -/
theorem runJob_of_submitted (up : Upstream) (config : ModelConfig) (falBody : Payload)
    (submitResponse : SubmitResponse) (requestId : Option String)
    (hsub : up.submit config.submitUrl falBody = .ok submitResponse)
    (hok : submitResponse.ok = true) (hid : submitResponse.json = .ok requestId) :
    runJob up config falBody =
      (match (pollLoop up (config.statusBaseUrl ++ "/requests/" ++ strOf requestId)
          maxAttempts 0).1 with
        | .found (some result) => .ok (requestId, result)
        | .found none => .error (.error "Generation timed out.")
        | .thrown e => .error e
        | .exhausted => .error (.error "Generation timed out."),
       Call.submit config.submitUrl falBody ::
        (pollLoop up (config.statusBaseUrl ++ "/requests/" ++ strOf requestId)
          maxAttempts 0).2) := by
  have hok' : (!submitResponse.ok) = false := by simp [hok]
  simp only [runJob, hsub, hok', hid]
  cases hp : pollLoop up (config.statusBaseUrl ++ "/requests/" ++ strOf requestId)
      maxAttempts 0 with
  | mk outcome calls =>
    cases outcome with
    | found result => cases result <;> rfl
    | thrown e => rfl
    | exhausted => rfl

/-- The polling loop on a sequence of responses of which the `k`-th, among the first
600, is the first one that is not skipped. -/
theorem pollLoop_first (up : Upstream) (statusUrl : String) (responses : Nat → StatusResponse)
    (k : Nat) (hk : k < 600)
    (hskip : ∀ j, j < k → up.status statusUrl j = .ok (responses j) ∧
      (responses j).parses ∧ pollDecision (responses j) = none) :
    pollLoop up statusUrl maxAttempts 0
      = ((pollLoop up statusUrl (599 - k + 1) k).1,
          List.replicate k (Call.status statusUrl) ++ (pollLoop up statusUrl (599 - k + 1) k).2) := by
  have hpre := pollLoop_skips up statusUrl responses k (599 - k + 1) 0 (fun j hj => by
    simp only [Nat.zero_add]
    exact hskip j hj)
  have e600 : k + (599 - k + 1) = maxAttempts := by simp only [maxAttempts]; omega
  rw [e600] at hpre
  simp only [Nat.zero_add] at hpre
  exact hpre

/-- A job decided by success at poll `k`: the polls before it are skipped, and the job
returns the request id and the first image. -/
theorem runJob_succeeded (up : Upstream) (config : ModelConfig) (falBody : Payload)
    (submitResponse : SubmitResponse) (requestId : Option String)
    (responses : Nat → StatusResponse) (k : Nat) (img : Image)
    (hsub : up.submit config.submitUrl falBody = .ok submitResponse)
    (hok : submitResponse.ok = true) (hid : submitResponse.json = .ok requestId)
    (hk : k < 600)
    (hskip : ∀ j, j < k →
      up.status (config.statusBaseUrl ++ "/requests/" ++ strOf requestId) j = .ok (responses j) ∧
      (responses j).parses ∧ pollDecision (responses j) = none)
    (hr : up.status (config.statusBaseUrl ++ "/requests/" ++ strOf requestId) k
      = .ok (responses k))
    (hd : pollDecision (responses k) = some (.succeeded (some img))) :
    runJob up config falBody
      = (.ok (requestId, img), Call.submit config.submitUrl falBody ::
          List.replicate (k + 1)
            (Call.status (config.statusBaseUrl ++ "/requests/" ++ strOf requestId))) := by
  rw [runJob_of_submitted up config falBody submitResponse requestId hsub hok hid,
    pollLoop_first up _ responses k hk hskip,
    pollLoop_found up _ (599 - k) k (responses k) (some img) hr hd]
  simp [List.replicate_succ']

/-- A job decided by failure at poll `k`: the polls before it are skipped, and the job
throws `Generation FAILED` or `Generation CANCELLED`. -/
theorem runJob_failed (up : Upstream) (config : ModelConfig) (falBody : Payload)
    (submitResponse : SubmitResponse) (requestId : Option String)
    (responses : Nat → StatusResponse) (k : Nat) (s : String)
    (hsub : up.submit config.submitUrl falBody = .ok submitResponse)
    (hok : submitResponse.ok = true) (hid : submitResponse.json = .ok requestId)
    (hk : k < 600)
    (hskip : ∀ j, j < k →
      up.status (config.statusBaseUrl ++ "/requests/" ++ strOf requestId) j = .ok (responses j) ∧
      (responses j).parses ∧ pollDecision (responses j) = none)
    (hr : up.status (config.statusBaseUrl ++ "/requests/" ++ strOf requestId) k
      = .ok (responses k))
    (hd : pollDecision (responses k) = some (.failed s)) :
    runJob up config falBody
        = (.error (.error ("Generation " ++ s)), Call.submit config.submitUrl falBody ::
            List.replicate (k + 1)
              (Call.status (config.statusBaseUrl ++ "/requests/" ++ strOf requestId))) ∧
      "Generation " ++ s ≠ "Generation timed out." := by
  have hstep := pollLoop_failed up _ (599 - k) k (responses k) s hr hd
  refine ⟨?_, ?_⟩
  · rw [runJob_of_submitted up config falBody submitResponse requestId hsub hok hid,
      pollLoop_first up _ responses k hk hskip, hstep.1]
    simp [List.replicate_succ']
  · rcases hstep.2 with h | h <;> subst h <;> decide

/-- A job none of whose 600 polls decides: the job throws the time-out error after 600
status calls. -/
theorem runJob_timed_out (up : Upstream) (config : ModelConfig) (falBody : Payload)
    (submitResponse : SubmitResponse) (requestId : Option String)
    (responses : Nat → StatusResponse)
    (hsub : up.submit config.submitUrl falBody = .ok submitResponse)
    (hok : submitResponse.ok = true) (hid : submitResponse.json = .ok requestId)
    (hskip : ∀ j, j < 600 →
      up.status (config.statusBaseUrl ++ "/requests/" ++ strOf requestId) j = .ok (responses j) ∧
      (responses j).parses ∧ pollDecision (responses j) = none) :
    runJob up config falBody
      = (.error (.error "Generation timed out."), Call.submit config.submitUrl falBody ::
          List.replicate 600
            (Call.status (config.statusBaseUrl ++ "/requests/" ++ strOf requestId))) := by
  have hpre := pollLoop_skips up (config.statusBaseUrl ++ "/requests/" ++ strOf requestId)
    responses 600 0 0 (fun j hj => by
      simp only [Nat.zero_add]
      exact hskip j hj)
  have e600 : 600 + 0 = maxAttempts := rfl
  have h0 : ∀ i, pollLoop up (config.statusBaseUrl ++ "/requests/" ++ strOf requestId) 0 i
      = (.exhausted, []) := fun _ => rfl
  rw [e600] at hpre
  simp only [h0, List.append_nil] at hpre
  rw [runJob_of_submitted up config falBody submitResponse requestId hsub hok hid, hpre]

/-- Claim C11, as amended: after a successful submission (an ok response whose body
gives the request id), for every sequence of poll responses in which each poll made is
answered and each 200 response that is skipped carries a JSON body, the job is decided
by the first response among the first 600 that decides: the job succeeds with the first
image of a 200 response with a non-empty image list whose first element is an image
object, or fails with `Generation FAILED` or `Generation CANCELLED` (not the time-out
error) on a 200 response with that status; every response before it (non-200, or 200
still in progress) is skipped with one status call each; if none of the first 600
responses decides, the job fails with `Generation timed out.` after exactly 600 status
calls; and in every case at most 600 status calls follow the submit call. -/
theorem poll_outcome (up : Upstream) (config : ModelConfig) (falBody : Payload)
    (submitResponse : SubmitResponse) (requestId : Option String)
    (responses : Nat → StatusResponse)
    (hsub : up.submit config.submitUrl falBody = .ok submitResponse)
    (hok : submitResponse.ok = true) (hid : submitResponse.json = .ok requestId) :
    (∀ k, k < 600 →
      (∀ j, j ≤ k →
        up.status (config.statusBaseUrl ++ "/requests/" ++ strOf requestId) j
          = .ok (responses j)) →
      (∀ j, j < k → (responses j).parses ∧ pollDecision (responses j) = none) →
      (∀ img, pollDecision (responses k) = some (.succeeded (some img)) →
        runJob up config falBody
          = (.ok (requestId, img), Call.submit config.submitUrl falBody ::
              List.replicate (k + 1)
                (Call.status (config.statusBaseUrl ++ "/requests/" ++ strOf requestId)))) ∧
      (∀ s, pollDecision (responses k) = some (.failed s) →
        runJob up config falBody
          = (.error (.error ("Generation " ++ s)), Call.submit config.submitUrl falBody ::
              List.replicate (k + 1)
                (Call.status (config.statusBaseUrl ++ "/requests/" ++ strOf requestId))) ∧
        "Generation " ++ s ≠ "Generation timed out.")) ∧
    ((∀ j, j < 600 →
        up.status (config.statusBaseUrl ++ "/requests/" ++ strOf requestId) j
          = .ok (responses j) ∧
        (responses j).parses ∧ pollDecision (responses j) = none) →
      runJob up config falBody
        = (.error (.error "Generation timed out."), Call.submit config.submitUrl falBody ::
            List.replicate 600
              (Call.status (config.statusBaseUrl ++ "/requests/" ++ strOf requestId)))) ∧
    (∃ polls, (runJob up config falBody).2 = Call.submit config.submitUrl falBody :: polls ∧
      polls.length ≤ 600 ∧
      ∀ c ∈ polls, c = Call.status (config.statusBaseUrl ++ "/requests/" ++ strOf requestId)) := by
  refine ⟨?_, ?_, ?_⟩
  · intro k hk hans hskip
    have hskip' : ∀ j, j < k →
        up.status (config.statusBaseUrl ++ "/requests/" ++ strOf requestId) j
          = .ok (responses j) ∧
        (responses j).parses ∧ pollDecision (responses j) = none :=
      fun j hj => ⟨hans j (by omega), hskip j hj⟩
    exact ⟨fun img hd => runJob_succeeded up config falBody submitResponse requestId responses
        k img hsub hok hid hk hskip' (hans k (by omega)) hd,
      fun s hd => runJob_failed up config falBody submitResponse requestId responses
        k s hsub hok hid hk hskip' (hans k (by omega)) hd⟩
  · exact runJob_timed_out up config falBody submitResponse requestId responses hsub hok hid
  · refine ⟨_, by rw [runJob_of_submitted up config falBody submitResponse requestId hsub hok hid],
      ?_, ?_⟩
    · exact pollLoop_calls_le up _ maxAttempts 0
    · exact pollLoop_calls_status up _ maxAttempts 0

/-- Witness of C11: two polls still in progress, then a 200 response with one image. -/
theorem poll_outcome_witness :
    runJob
        { submit := fun _ _ => .ok { status := 200, text := "", json := .ok (some "r1") }
          status := fun _ i =>
            .ok (if i < 2 then { status := 200, json := .ok { status := some "IN_PROGRESS" } }
              else { status := 200,
                     json := .ok { images := some [some { url := some "http://x/y.png" }] } }) }
        ((FAL_MODEL_CONFIG.lookup "flux-2-pro").get (by decide))
        { num_images := 1 }
      = (.ok (some "r1", { url := some "http://x/y.png" }),
          Call.submit "https://queue.fal.run/fal-ai/flux-2-pro" { num_images := 1 } ::
            List.replicate 3 (Call.status "https://queue.fal.run/fal-ai/flux-2-pro/requests/r1")) :=
  ((poll_outcome
    { submit := fun _ _ => .ok { status := 200, text := "", json := .ok (some "r1") }
      status := fun _ i =>
        .ok (if i < 2 then { status := 200, json := .ok { status := some "IN_PROGRESS" } }
          else { status := 200,
                 json := .ok { images := some [some { url := some "http://x/y.png" }] } }) }
    ((FAL_MODEL_CONFIG.lookup "flux-2-pro").get (by decide))
    { num_images := 1 }
    { status := 200, text := "", json := .ok (some "r1") } (some "r1")
    (fun i => if i < 2 then { status := 200, json := .ok { status := some "IN_PROGRESS" } }
      else { status := 200,
             json := .ok { images := some [some { url := some "http://x/y.png" }] } })
    rfl (by decide) rfl).1 2 (by decide) (fun _ _ => rfl)
    (fun j hj => by
      have h : j < 2 := hj
      simp [pollDecision, StatusResponse.parses, h])).1 { url := some "http://x/y.png" } (by decide)

/-- Counterexample to claim C11 as stated. A first poll answered with status 200 and a
body that is not JSON is neither a response with images nor one with a failed status, so
it decides nothing and is to be skipped, and the second poll, a 200 response with one
image, is to make the job succeed; the code throws the parse error at the first poll
and issues no second one. And a 200 response whose image list is not empty but starts
with `null` is to make the job succeed; the code leaves the loop and throws the
time-out error after that single poll. -/
theorem poll_error_ends_job :
    pollDecision { status := 200, json := .error "Unexpected token <" } = none ∧
    pollDecision
        { status := 200, json := .ok { images := some [some { url := some "https://x/y.png" }] } }
      = some (.succeeded (some { url := some "https://x/y.png" })) ∧
    runJob
        { submit := fun _ _ => .ok { status := 200, text := "", json := .ok (some "r1") }
          status := fun _ i =>
            .ok (if i = 0 then { status := 200, json := .error "Unexpected token <" }
              else { status := 200,
                     json := .ok { images := some [some { url := some "https://x/y.png" }] } }) }
        ((FAL_MODEL_CONFIG.lookup "flux-2-pro").get (by decide))
        { num_images := 1 }
      = (.error (.error "Unexpected token <"),
          [Call.submit "https://queue.fal.run/fal-ai/flux-2-pro" { num_images := 1 },
           Call.status "https://queue.fal.run/fal-ai/flux-2-pro/requests/r1"]) ∧
    pollDecision { status := 200, json := .ok { images := some [none] } }
      = some (.succeeded none) ∧
    runJob
        { submit := fun _ _ => .ok { status := 200, text := "", json := .ok (some "r1") }
          status := fun _ _ => .ok { status := 200, json := .ok { images := some [none] } } }
        ((FAL_MODEL_CONFIG.lookup "flux-2-pro").get (by decide))
        { num_images := 1 }
      = (.error (.error "Generation timed out."),
          [Call.submit "https://queue.fal.run/fal-ai/flux-2-pro" { num_images := 1 },
           Call.status "https://queue.fal.run/fal-ai/flux-2-pro/requests/r1"]) :=
  ⟨rfl, rfl, rfl, rfl, rfl⟩

/-! ### The bulk endpoint -/

/-- The response of the bulk handler once the guards are passed: one slot per request,
in order. -/
theorem generateBulk_accepted (env : Env) (ups : Nat → Upstream) (requests : List Params)
    (hk : env.falKey = true) (h1 : 1 ≤ requests.length) (h5 : requests.length ≤ 5) :
    generateBulk env ups requests
      = (.ok (requests.enum.map (fun ir => (bulkSlot env (ups ir.1) ir.2).1)),
          requests.enum.map (fun ir => (bulkSlot env (ups ir.1) ir.2).2)) := by
  have h0 : (requests.length == 0) = false := by
    simp only [beq_eq_false_iff_ne, ne_eq]; omega
  have hmax : ¬ requests.length > maxBulkRequests := by
    simp only [maxBulkRequests]; omega
  simp only [generateBulk, hk, h0, hmax, Bool.not_true, Bool.false_eq_true, if_false,
    List.map_map]
  rfl

/-- The `i`-th slot of an accepted batch. -/
theorem generateBulk_slot (env : Env) (ups : Nat → Upstream) (requests : List Params)
    (i : Nat) (req : Params) (hi : requests[i]? = some req) :
    (requests.enum.map (fun ir => (bulkSlot env (ups ir.1) ir.2).1))[i]?
      = some (bulkSlot env (ups i) req).1 := by
  simp [List.getElem?_map, List.getElem?_enum, hi]

/-- A job error thrown after validation gives a failure that carries the message of the
error and no request parameters. -/
theorem bulkSlot_thrown (env : Env) (up : Upstream) (requestParams : Params)
    (config : ModelConfig) (e : JsError)
    (hm : (strOf requestParams.model, config) ∈ FAL_MODEL_CONFIG)
    (hv : (validateOwn (strOf requestParams.model) config requestParams).valid = true)
    (hjob : (runJob up config
      (constructOwn (strOf requestParams.model) config requestParams)).1 = .error e) :
    bulkSlot env up requestParams
      = (.failure e.message none,
          (runJob up config (constructOwn (strOf requestParams.model) config requestParams)).2) := by
  simp only [bulkSlot, validate_of_mem hm, construct_of_mem hm, jsGet_of_mem hm, hv,
    Bool.not_true, Bool.false_eq_true, if_false, hjob]

/-- A job that completes after validation gives a success that carries the record. -/
theorem bulkSlot_completed (env : Env) (up : Upstream) (requestParams : Params)
    (config : ModelConfig) (requestId : Option String) (result : Image)
    (hm : (strOf requestParams.model, config) ∈ FAL_MODEL_CONFIG)
    (hv : (validateOwn (strOf requestParams.model) config requestParams).valid = true)
    (hjob : (runJob up config
      (constructOwn (strOf requestParams.model) config requestParams)).1
        = .ok (requestId, result)) :
    bulkSlot env up requestParams
      = (.success (bulkRecord env config requestParams requestId result),
          (runJob up config (constructOwn (strOf requestParams.model) config requestParams)).2) := by
  simp only [bulkSlot, validate_of_mem hm, construct_of_mem hm, jsGet_of_mem hm, hv,
    Bool.not_true, Bool.false_eq_true, if_false, hjob]

/-- A validation failure gives a failure that carries the joined messages and the
request parameters, and issues no upstream call. -/
theorem bulkSlot_invalid (env : Env) (up : Upstream) (requestParams : Params)
    (config : ModelConfig)
    (hm : (strOf requestParams.model, config) ∈ FAL_MODEL_CONFIG)
    (hv : (validateOwn (strOf requestParams.model) config requestParams).valid = false) :
    bulkSlot env up requestParams
      = (.failure (join (ownErrors (strOf requestParams.model) config requestParams) ", ")
          (some requestParams), []) := by
  simp only [bulkSlot, validate_of_mem hm, hv, Bool.not_false, if_true]
  simp only [validateOwn_eq]

/-- Claim C12: for every request sequence of length greater than 5 the bulk handler
rejects the whole sequence with an error and issues no upstream call for any element
(on a server with `FAL_KEY` the error is the 400 response `Maximum 5 requests per bulk
operation.`); on a server with `FAL_KEY` every sequence of length 1 to 5 is accepted
and run, one pipeline per request. -/
theorem bulk_size_limit (env : Env) (ups : Nat → Upstream) (requests : List Params) :
    (5 < requests.length →
      (∃ status message, generateBulk env ups requests = (.error status message, [])) ∧
      (env.falKey = true → generateBulk env ups requests
        = (.error 400 "Maximum 5 requests per bulk operation.", []))) ∧
    (env.falKey = true → 1 ≤ requests.length → requests.length ≤ 5 →
      ∃ outcomes, generateBulk env ups requests
          = (.ok outcomes, requests.enum.map (fun ir => (bulkSlot env (ups ir.1) ir.2).2)) ∧
        outcomes.length = requests.length) := by
  constructor
  · intro h
    have h0 : (requests.length == 0) = false := by
      simp only [beq_eq_false_iff_ne, ne_eq]; omega
    have hmax : requests.length > maxBulkRequests := by
      simp only [maxBulkRequests]; omega
    constructor
    · cases hk : env.falKey
      · exact ⟨500, "Server missing FAL_KEY configuration.", by simp [generateBulk, hk]⟩
      · exact ⟨400, "Maximum 5 requests per bulk operation.",
          by simp [generateBulk, hk, h0, hmax]⟩
    · intro hk
      simp [generateBulk, hk, h0, hmax]
  · intro hk h1 h5
    exact ⟨_, generateBulk_accepted env ups requests hk h1 h5, by simp⟩

/-- Witness of C12: six requests are rejected, without any upstream call. -/
theorem bulk_size_limit_witness :
    generateBulk
        { falKey := true, lskyConfigured := false, uploadToLsky := fun _ => none, now := "t" }
        (fun _ => { submit := fun _ _ => .error "down", status := fun _ _ => .error "down" })
        (List.replicate 6 { model := some "flux-2-pro", prompt := some "a cat" })
      = (.error 400 "Maximum 5 requests per bulk operation.", []) :=
  ((bulk_size_limit
    { falKey := true, lskyConfigured := false, uploadToLsky := fun _ => none, now := "t" }
    (fun _ => { submit := fun _ _ => .error "down", status := fun _ _ => .error "down" })
    (List.replicate 6 { model := some "flux-2-pro", prompt := some "a cat" })).1
    (by decide)).2 rfl

/-- Claim C13: for every accepted request sequence (length 1 to 5, on a server with
`FAL_KEY`) the bulk handler responds with an outcome sequence of the same length whose
`i`-th outcome is the outcome of the validate, build, submit and poll pipeline on the
`i`-th request, which is also the single outcome of the batch that holds the `i`-th
request alone, and which does not change when the other requests change. For a request
to a model of the table that outcome is: a failure with the joined messages when
validation fails; and, when validation passes, a failure with the submission error when
the submit call is answered with a non-success response, a failure with
`Generation FAILED` or `Generation CANCELLED` when the first deciding poll reports that
status, a failure with `Generation timed out.` when none of the 600 polls decides, a
failure with the message of whatever error the job throws, and a success with the record
when the first deciding poll brings an image (the polls up to the deciding one being
answered, each 200 response with a JSON body). In each case the batch as a whole
succeeds. -/
theorem bulk_order_isolation (env : Env) (ups : Nat → Upstream) (requests : List Params)
    (hk : env.falKey = true) (h1 : 1 ≤ requests.length) (h5 : requests.length ≤ 5) :
    ∃ outcomes, (generateBulk env ups requests).1 = .ok outcomes ∧
      outcomes.length = requests.length ∧
      (∀ i req, requests[i]? = some req →
        outcomes[i]? = some (bulkSlot env (ups i) req).1 ∧
        (generateBulk env (fun _ => ups i) [req]).1 = .ok [(bulkSlot env (ups i) req).1]) ∧
      (∀ (others : List Params) (i : Nat), 1 ≤ others.length → others.length ≤ 5 →
        others[i]? = requests[i]? → i < requests.length →
        ∃ outcomes', (generateBulk env ups others).1 = .ok outcomes' ∧
          outcomes'[i]? = outcomes[i]?) ∧
      (∀ i req config, requests[i]? = some req →
        (strOf req.model, config) ∈ FAL_MODEL_CONFIG →
        ((validateOwn (strOf req.model) config req).valid = false →
          outcomes[i]? = some (.failure
            (join (ownErrors (strOf req.model) config req) ", ") (some req))) ∧
        ((validateOwn (strOf req.model) config req).valid = true →
          (∀ submitResponse,
            (ups i).submit config.submitUrl (constructOwn (strOf req.model) config req)
              = .ok submitResponse →
            submitResponse.ok = false →
            outcomes[i]? = some (.failure
              ("Fal.ai submission failed: " ++ toString submitResponse.status ++ " "
                ++ submitResponse.text) none)) ∧
          (∀ requestId responses,
            (∀ k, k < 600 →
              (ups i).Serves config (constructOwn (strOf req.model) config req) requestId
                responses (k + 1) →
              (∀ j, j < k → pollDecision (responses j) = none) →
              (∀ s, pollDecision (responses k) = some (.failed s) →
                outcomes[i]? = some (.failure ("Generation " ++ s) none)) ∧
              (∀ img, pollDecision (responses k) = some (.succeeded (some img)) →
                outcomes[i]? = some (.success (bulkRecord env config req requestId img)))) ∧
            ((ups i).Serves config (constructOwn (strOf req.model) config req) requestId
                responses 600 →
              (∀ j, j < 600 → pollDecision (responses j) = none) →
              outcomes[i]? = some (.failure "Generation timed out." none))) ∧
          (∀ e, (runJob (ups i) config (constructOwn (strOf req.model) config req)).1
              = .error e →
            outcomes[i]? = some (.failure e.message none)))) := by
  refine ⟨_, by rw [generateBulk_accepted env ups requests hk h1 h5], by simp, ?_, ?_, ?_⟩
  · intro i req hi
    refine ⟨generateBulk_slot env ups requests i req hi, ?_⟩
    rw [generateBulk_accepted env (fun _ => ups i) [req] hk (by simp) (by simp)]
    rfl
  · intro others i ho1 ho5 hsame hi
    refine ⟨_, by rw [generateBulk_accepted env ups others hk ho1 ho5], ?_⟩
    obtain ⟨req, hreq⟩ : ∃ req, requests[i]? = some req :=
      ⟨requests[i], List.getElem?_eq_getElem hi⟩
    rw [generateBulk_slot env ups requests i req hreq,
      generateBulk_slot env ups others i req (hsame.trans hreq)]
  · intro i req config hi hm
    rw [generateBulk_slot env ups requests i req hi]
    refine ⟨fun hv => by rw [bulkSlot_invalid env (ups i) req config hm hv], fun hv => ?_⟩
    have hfail : ∀ e,
        (runJob (ups i) config (constructOwn (strOf req.model) config req)).1 = .error e →
        some (bulkSlot env (ups i) req).1 = some (Outcome.failure e.message none) :=
      fun e he => by rw [bulkSlot_thrown env (ups i) req config e hm hv he]
    refine ⟨?_, ?_, hfail⟩
    · intro submitResponse hsub hok
      have hjob : runJob (ups i) config (constructOwn (strOf req.model) config req)
          = (.error (.error ("Fal.ai submission failed: " ++ toString submitResponse.status
              ++ " " ++ submitResponse.text)),
              [Call.submit config.submitUrl (constructOwn (strOf req.model) config req)]) := by
        simp [runJob, hsub, hok]
      exact hfail _ (by rw [hjob])
    · intro requestId responses
      refine ⟨fun k hk hserves hskip => ⟨fun s hd => ?_, fun img hd => ?_⟩,
        fun hserves hskip => ?_⟩
      · obtain ⟨⟨submitResponse, hsub, hok, hid⟩, hresp⟩ := hserves
        have hjob := (runJob_failed (ups i) config _ submitResponse requestId responses k s
          hsub hok hid hk (fun j hj => ⟨(hresp j (by omega)).1, (hresp j (by omega)).2,
            hskip j hj⟩) (hresp k (by omega)).1 hd).1
        exact hfail _ (by rw [hjob])
      · obtain ⟨⟨submitResponse, hsub, hok, hid⟩, hresp⟩ := hserves
        have hjob := runJob_succeeded (ups i) config _ submitResponse requestId responses k img
          hsub hok hid hk (fun j hj => ⟨(hresp j (by omega)).1, (hresp j (by omega)).2,
            hskip j hj⟩) (hresp k (by omega)).1 hd
        rw [bulkSlot_completed env (ups i) req config requestId img hm hv (by rw [hjob])]
      · obtain ⟨⟨submitResponse, hsub, hok, hid⟩, hresp⟩ := hserves
        have hjob := runJob_timed_out (ups i) config _ submitResponse requestId responses
          hsub hok hid (fun j hj => ⟨(hresp j hj).1, (hresp j hj).2, hskip j hj⟩)
        exact hfail _ (by rw [hjob])

/-- Witness of C13: three requests, each with its own upstream view. The first is valid
and its submit call is answered with status 500, the second is invalid (a seed for a
model without seed support), the third completes at its first poll: the response has
three outcomes, a failure with the submission error, a failure with the validation
message and the request, and a success. -/
theorem bulk_order_isolation_witness :
    ∃ outcomes,
      (generateBulk
        { falKey := true, lskyConfigured := false, uploadToLsky := fun _ => none, now := "t" }
        (fun i =>
          { submit := fun _ _ =>
              if i = 2 then .ok { status := 200, text := "", json := .ok (some "r1") }
              else .ok { status := 500, text := "boom", json := .error "no json" }
            status := fun _ _ => .ok
              { status := 200,
                json := .ok { images := some [some { url := some "https://x/y.png" }] } } })
        [{ model := some "flux-2-pro", prompt := some "a cat" },
         { model := some "imagen4-preview", prompt := some "a dog", seed := some 5 },
         { model := some "nano-banana-pro", prompt := some "a bird" }]).1 = .ok outcomes ∧
      outcomes.length = 3 ∧
      outcomes[0]? = some (.failure "Fal.ai submission failed: 500 boom" none) ∧
      outcomes[1]? = some (.failure "Model imagen4-preview does not support seed parameter"
        (some { model := some "imagen4-preview", prompt := some "a dog", seed := some 5 })) ∧
      ∃ record, outcomes[2]? = some (.success record) ∧
        record.url = some "https://x/y.png" := by
  obtain ⟨outcomes, h, hlen, hslot, _, hkind⟩ := bulk_order_isolation
    { falKey := true, lskyConfigured := false, uploadToLsky := fun _ => none, now := "t" }
    (fun i =>
      { submit := fun _ _ =>
          if i = 2 then .ok { status := 200, text := "", json := .ok (some "r1") }
          else .ok { status := 500, text := "boom", json := .error "no json" }
        status := fun _ _ => .ok
          { status := 200,
            json := .ok { images := some [some { url := some "https://x/y.png" }] } } })
    [{ model := some "flux-2-pro", prompt := some "a cat" },
     { model := some "imagen4-preview", prompt := some "a dog", seed := some 5 },
     { model := some "nano-banana-pro", prompt := some "a bird" }] rfl (by decide) (by decide)
  refine ⟨outcomes, h, hlen, ?_, ?_, ?_⟩
  · exact ((hkind 0 { model := some "flux-2-pro", prompt := some "a cat" }
      ((FAL_MODEL_CONFIG.lookup "flux-2-pro").get (by decide)) rfl (by decide)).2
        (by decide)).1 { status := 500, text := "boom", json := .error "no json" } rfl
          (by decide)
  · exact (hkind 1 { model := some "imagen4-preview", prompt := some "a dog", seed := some 5 }
      ((FAL_MODEL_CONFIG.lookup "imagen4-preview").get (by decide)) rfl (by decide)).1
        (by decide)
  · rw [(hslot 2 { model := some "nano-banana-pro", prompt := some "a bird" } rfl).1]
    exact ⟨_, rfl, rfl⟩

/-- Claim C14, the code at the failing input: a valid request whose submit call is
answered with status 500 gives a failure outcome that carries the error message and no
request parameters, while the failure outcome of a validation error carries them. -/
theorem bulk_failure_without_params (env : Env) :
    bulkSlot env
        { submit := fun _ _ => .ok { status := 500, text := "boom", json := .error "no json" }
          status := fun _ _ => .error "unreachable" }
        { model := some "flux-2-pro", prompt := some "a cat" }
      = (.failure "Fal.ai submission failed: 500 boom" none,
          [Call.submit "https://queue.fal.run/fal-ai/flux-2-pro"
            { prompt := some "a cat", num_images := 1 }]) ∧
    bulkSlot env
        { submit := fun _ _ => .ok { status := 500, text := "boom", json := .error "no json" }
          status := fun _ _ => .error "unreachable" }
        { model := some "imagen4-preview", prompt := some "a dog", seed := some 5 }
      = (.failure "Model imagen4-preview does not support seed parameter"
          (some { model := some "imagen4-preview", prompt := some "a dog", seed := some 5 }),
          []) :=
  ⟨rfl, rfl⟩

/-! ### Records -/

/-- The prefix test of `httpsFix` holds exactly for the strings `http://` followed by
some rest. -/
theorem http_prefix_iff (u : String) :
    "http://".data.isPrefixOf u.data = true ↔ ∃ rest : String, u = "http://" ++ rest := by
  rw [List.isPrefixOf_iff_prefix]
  constructor
  · rintro ⟨t, ht⟩
    refine ⟨String.mk t, ?_⟩
    apply String.ext
    rw [String.data_append, ← ht]
  · rintro ⟨rest, rfl⟩
    exact ⟨rest.data, by rw [String.data_append]⟩

/-- Claim C15: for every upstream result URL `u`, the recorded URL is `https://`
followed by the rest of `u` when `u` is `http://` followed by that rest (so
`http://x/y.png` is recorded as `https://x/y.png`), and is `u` otherwise; the recorded
URL never starts with `http://`; and both endpoints record the URL so rewritten. -/
theorem url_normalization :
    (∀ rest : String, httpsFix (some ("http://" ++ rest)) = some ("https://" ++ rest)) ∧
    (∀ u : String, (¬ ∃ rest : String, u = "http://" ++ rest) → httpsFix (some u) = some u) ∧
    httpsFix (some "http://x/y.png") = some "https://x/y.png" ∧
    (∀ u recorded : String, httpsFix (some u) = some recorded →
      ¬ ∃ rest : String, recorded = "http://" ++ rest) ∧
    (∀ (env : Env) (config : ModelConfig) (req : Params) (requestId : Option String)
      (result : Image),
      (singleRecord env config req requestId result).url = httpsFix result.url ∧
      (bulkRecord env config req requestId result).url = httpsFix result.url) := by
  have h1 : ∀ rest : String, httpsFix (some ("http://" ++ rest)) = some ("https://" ++ rest) := by
    intro rest
    have hp : "http://".data.isPrefixOf ("http://" ++ rest).data = true :=
      (http_prefix_iff _).mpr ⟨rest, rfl⟩
    simp only [httpsFix, hp, if_true]
    congr 1
  have h2 : ∀ u : String, (¬ ∃ rest : String, u = "http://" ++ rest) →
      httpsFix (some u) = some u := by
    intro u hu
    have hp : "http://".data.isPrefixOf u.data = false := by
      rw [← Bool.not_eq_true, http_prefix_iff]
      exact hu
    simp [httpsFix, hp]
  refine ⟨h1, h2, by decide, ?_, fun _ _ _ _ _ => ⟨rfl, rfl⟩⟩
  intro u recorded h
  by_cases hu : ∃ rest : String, u = "http://" ++ rest
  · obtain ⟨rest, rfl⟩ := hu
    rw [h1 rest] at h
    injection h with h
    subst h
    rintro ⟨rest', hr⟩
    have := congrArg String.data hr
    simp [String.data_append] at this
  · rw [h2 u hu] at h
    injection h with h
    subst h
    exact hu

/-- Witness of C15: a URL with another scheme is recorded unchanged. -/
theorem url_normalization_witness : httpsFix (some "ftp://x/y.png") = some "ftp://x/y.png" :=
  url_normalization.2.1 "ftp://x/y.png" (by
    rintro ⟨rest, h⟩
    have := congrArg String.data h
    simp [String.data_append] at this)

/-- The part of C16 the code does: the record's aspect ratio, resolution and output
format are the request's value when the request gave a non-empty one and the model's
default otherwise, and the record's seed and safety tolerance are those of the request,
in both endpoints. -/
theorem record_resolved_fields (env : Env) (config : ModelConfig) (req : Params)
    (requestId : Option String) (result : Image) :
    (singleRecord env config req requestId result).aspectRatio
        = (if truthyStr req.aspectRatio then req.aspectRatio else config.defaults.aspectRatio) ∧
    (singleRecord env config req requestId result).resolution
        = (if truthyStr req.resolution then req.resolution else config.defaults.resolution) ∧
    (singleRecord env config req requestId result).outputFormat
        = (if truthyStr req.outputFormat then req.outputFormat
            else config.defaults.outputFormat) ∧
    (singleRecord env config req requestId result).seed = req.seed ∧
    (singleRecord env config req requestId result).safety_tolerance = req.safety_tolerance ∧
    (bulkRecord env config req requestId result).aspectRatio
        = (singleRecord env config req requestId result).aspectRatio ∧
    (bulkRecord env config req requestId result).resolution
        = (singleRecord env config req requestId result).resolution ∧
    (bulkRecord env config req requestId result).outputFormat
        = (singleRecord env config req requestId result).outputFormat ∧
    (bulkRecord env config req requestId result).seed = req.seed ∧
    (bulkRecord env config req requestId result).safety_tolerance = req.safety_tolerance :=
  ⟨rfl, rfl, rfl, rfl, rfl, rfl, rfl, rfl, rfl, rfl⟩

/-- Claim C16, the code at the failing input: `flux-1.1-pro-ultra` has the default
safety tolerance `2`; a request without `safety_tolerance` that completes at the first
poll gives, in the single endpoint and in the batch, a record whose `safety_tolerance`
is absent, while its aspect ratio and output format hold the defaults `16:9` and
`jpeg`. -/
theorem record_without_default_tolerance :
    (∃ config, ("flux-1.1-pro-ultra", config) ∈ FAL_MODEL_CONFIG ∧
      config.defaults.safetyTolerance = some "2") ∧
    (∃ record calls,
      generate
          { falKey := true, lskyConfigured := false, uploadToLsky := fun _ => none, now := "t" }
          { submit := fun _ _ => .ok { status := 200, text := "", json := .ok (some "r1") }
            status := fun _ _ => .ok
              { status := 200, json := .ok { images := some [some { url := some "https://x/y.png" }] } } }
          { model := some "flux-1.1-pro-ultra", prompt := some "a cat" }
        = (.ok record, calls) ∧
      record.safety_tolerance = none ∧ record.aspectRatio = some "16:9" ∧
      record.outputFormat = some "jpeg") ∧
    (∃ record calls,
      bulkSlot
          { falKey := true, lskyConfigured := false, uploadToLsky := fun _ => none, now := "t" }
          { submit := fun _ _ => .ok { status := 200, text := "", json := .ok (some "r1") }
            status := fun _ _ => .ok
              { status := 200, json := .ok { images := some [some { url := some "https://x/y.png" }] } } }
          { model := some "flux-1.1-pro-ultra", prompt := some "a cat" }
        = (.success record, calls) ∧
      record.safety_tolerance = none ∧ record.aspectRatio = some "16:9" ∧
      record.outputFormat = some "jpeg") :=
  ⟨⟨(FAL_MODEL_CONFIG.lookup "flux-1.1-pro-ultra").get (by decide), by decide, by decide⟩,
   ⟨_, _, rfl, rfl, rfl, rfl⟩, ⟨_, _, rfl, rfl, rfl, rfl⟩⟩

/-! ### Validated requests -/

/-- A valid result of the seven checks has no aspect-ratio message. -/
theorem checkAspectRatio_of_valid {model : String} {config : ModelConfig} {params : Params}
    (hv : (validateOwn model config params).valid = true) :
    checkAspectRatio model config params [] = [] := by
  rw [validateOwn_eq] at hv
  have hnil : ownErrors model config params = [] := by
    cases h : ownErrors model config params with
    | nil => rfl
    | cons _ _ => rw [h] at hv; simp at hv
  unfold ownErrors at hnil
  simp only [List.append_eq_nil] at hnil
  exact hnil.1.1.1.1.1

/-- For the two named-size models a valid request gives an aspect ratio of the fixed
list, or none. -/
theorem validRatio_of_valid {model : String} {config : ModelConfig} {params : Params}
    (hn : model = "flux-2-pro" ∨ model = "flux-2-pro-edit")
    (hv : (validateOwn model config params).valid = true) (r : String)
    (hp : params.aspectRatio = some r) (hne : r ≠ "") :
    r ∈ validRatios := by
  have h := checkAspectRatio_of_valid hv
  unfold checkAspectRatio at h
  by_contra hr
  simp [hp, truthyStr, hne, strOf, hn, hr] at h

/-- Claim C17, as amended: for every request to `flux-2-pro` or `flux-2-pro-edit` (named
by that string) that gives a non-empty aspect ratio and for which
`validateModelParameters` returns `valid = true`, the payload's `image_size` is the value
the translation table holds for that aspect ratio and is one of `square`,
`landscape_16_9`, `portrait_16_9`, `landscape_4_3`, `portrait_4_3`; and a validated
`flux-2-pro-edit` request yields `image_size = auto` if and only if its aspect ratio is
absent or empty. -/
theorem named_size_after_validation (model : String) (params : Params)
    (validation : ValidationResult)
    (hn : model = "flux-2-pro" ∨ model = "flux-2-pro-edit")
    (hval : validateModelParameters model params = .ok validation)
    (hv : validation.valid = true) :
    (∀ r, params.aspectRatio = some r → r ≠ "" →
      ∃ payload size, constructFalPayload model params = .ok payload ∧
        payload.image_size = some (.str size) ∧
        aspectRatioMapEdit.lookup r = some size ∧
        (model = "flux-2-pro" → aspectRatioMap.lookup r = some size) ∧
        size ∈ ["square", "landscape_16_9", "portrait_16_9", "landscape_4_3", "portrait_4_3"]) ∧
    (model = "flux-2-pro-edit" →
      ∃ payload, constructFalPayload model params = .ok payload ∧
        (payload.image_size = some (.str "auto") ↔ truthyStr params.aspectRatio = false)) := by
  have hmem : ∃ config, (model, config) ∈ FAL_MODEL_CONFIG ∧
      (config.type == "image-to-image") = (model == "flux-2-pro-edit") := by
    rcases hn with rfl | rfl
    · exact ⟨(FAL_MODEL_CONFIG.lookup "flux-2-pro").get (by decide), by decide, by decide⟩
    · exact ⟨(FAL_MODEL_CONFIG.lookup "flux-2-pro-edit").get (by decide), by decide, by decide⟩
  obtain ⟨config, hm, htype⟩ := hmem
  rw [validate_of_mem hm] at hval
  injection hval with hval
  subst hval
  have hratio := validRatio_of_valid hn hv
  have hsize : ∀ r, params.aspectRatio = some r → r ≠ "" →
      ∃ size, (constructOwn model config params).image_size = some (.str size) ∧
        aspectRatioMapEdit.lookup r = some size ∧
        (model = "flux-2-pro" → aspectRatioMap.lookup r = some size) ∧
        size ∈ ["square", "landscape_16_9", "portrait_16_9", "landscape_4_3",
          "portrait_4_3"] := by
    intro r hp hne
    have hr := hratio r hp hne
    rw [constructOwn_image_size, htype]
    simp only [validRatios, List.mem_cons, List.mem_singleton, List.not_mem_nil, or_false] at hr
    rcases hn with rfl | rfl <;> rcases hr with rfl | rfl | rfl | rfl | rfl <;>
      simp [hp, truthyStr, strOf, lookupOr, jsGet, aspectRatioMap, aspectRatioMapEdit,
        List.lookup]
  constructor
  · intro r hp hne
    obtain ⟨size, h1, h2, h3, h4⟩ := hsize r hp hne
    exact ⟨_, size, construct_of_mem hm params, h1, h2, h3, h4⟩
  · intro hedit
    refine ⟨_, construct_of_mem hm params, ?_⟩
    constructor
    · intro hauto
      by_contra hgiven
      cases hp : params.aspectRatio with
      | none => simp [hp, truthyStr] at hgiven
      | some r =>
        have hne : r ≠ "" := by
          intro h0; simp [hp, truthyStr, h0] at hgiven
        obtain ⟨size, h1, _, _, h4⟩ := hsize r hp hne
        rw [h1] at hauto
        injection hauto with hauto
        injection hauto with hauto
        subst hauto
        simp at h4
    · intro hnone
      rw [constructOwn_image_size, htype]
      simp [hedit, hnone]

/-- Counterexample to claim C17 as stated: a request to `flux-2-pro` that gives the
empty string as aspect ratio is valid, and its payload has no `image_size`; a request to
`flux-2-pro-edit` that gives the empty string as aspect ratio (and a source image) is
valid, and its payload has the `image_size` `auto` although an aspect ratio is given. -/
theorem empty_aspect_ratio_after_validation :
    validateModelParameters "flux-2-pro" { aspectRatio := some "" }
      = .ok { valid := true, errors := some [] } ∧
    Except.map (fun p => p.image_size)
        (constructFalPayload "flux-2-pro" { aspectRatio := some "" })
      = .ok none ∧
    validateModelParameters "flux-2-pro-edit"
        { aspectRatio := some "", image_url := some "https://x/y.png" }
      = .ok { valid := true, errors := some [] } ∧
    Except.map (fun p => p.image_size)
        (constructFalPayload "flux-2-pro-edit"
          { aspectRatio := some "", image_url := some "https://x/y.png" })
      = .ok (some (.str "auto")) :=
  ⟨by decide, by decide, by decide, by decide⟩

/-- Witness of C17 as amended: a valid `flux-2-pro` request with aspect ratio `16:9` gets the
`image_size` `landscape_16_9`. -/
theorem named_size_after_validation_witness :
    ∃ payload size, constructFalPayload "flux-2-pro" { aspectRatio := some "16:9" } = .ok payload ∧
      payload.image_size = some (.str size) ∧
      aspectRatioMapEdit.lookup "16:9" = some size ∧
      ("flux-2-pro" = "flux-2-pro" → aspectRatioMap.lookup "16:9" = some size) ∧
      size ∈ ["square", "landscape_16_9", "portrait_16_9", "landscape_4_3", "portrait_4_3"] :=
  (named_size_after_validation "flux-2-pro" { aspectRatio := some "16:9" }
    { valid := true, errors := some [] } (Or.inl rfl) (by decide) rfl).1 "16:9" rfl (by decide)

/-- Claim C18: for every image-to-image model of `FAL_MODEL_CONFIG` and every request,
the payload built by `constructFalPayload` has no `resolution` field, also for
`nano-banana-pro-edit` with the resolution `2K`, which the model declares and which
passes `validateModelParameters`; for a model of the table a `resolution` field appears
only if the model is a text-to-image model. -/
theorem no_resolution_for_image_to_image :
    (∀ (model : String) (config : ModelConfig) (params : Params),
      (model, config) ∈ FAL_MODEL_CONFIG →
      ∃ payload, constructFalPayload model params = .ok payload ∧
        (config.type = "image-to-image" → payload.resolution = none) ∧
        (payload.resolution ≠ none → config.type = "text-to-image")) ∧
    (∃ config, ("nano-banana-pro-edit", config) ∈ FAL_MODEL_CONFIG ∧
      config.type = "image-to-image" ∧ "2K" ∈ config.supports.resolutions) ∧
    (∀ u : String, u ≠ "" →
      validateModelParameters "nano-banana-pro-edit" { resolution := some "2K", image_url := some u }
        = .ok { valid := true, errors := some [] } ∧
      Except.map (fun p => p.resolution)
          (constructFalPayload "nano-banana-pro-edit"
            { resolution := some "2K", image_url := some u })
        = .ok none) := by
  refine ⟨?_, ⟨(FAL_MODEL_CONFIG.lookup "nano-banana-pro-edit").get (by decide), by decide,
    by decide, by decide⟩, ?_⟩
  · intro model config params hm
    refine ⟨_, construct_of_mem hm params, ?_, ?_⟩
    · intro ht
      rw [constructOwn_resolution]
      simp [ht]
    · intro hres
      rw [constructOwn_resolution] at hres
      have hnot : config.type ≠ "image-to-image" := by
        intro ht
        simp [ht] at hres
      simp only [FAL_MODEL_CONFIG, List.mem_cons, Prod.mk.injEq, List.mem_singleton,
        List.not_mem_nil, or_false] at hm
      rcases hm with ⟨_, rfl⟩ | ⟨_, rfl⟩ | ⟨_, rfl⟩ | ⟨_, rfl⟩ | ⟨_, rfl⟩ | ⟨_, rfl⟩ <;>
        first | rfl | exact absurd rfl hnot
  · intro u hu
    have hm : ("nano-banana-pro-edit",
        (FAL_MODEL_CONFIG.lookup "nano-banana-pro-edit").get (by decide))
        ∈ FAL_MODEL_CONFIG := by decide
    constructor
    · rw [validate_of_mem hm, validateOwn_eq]
      have hnil : ownErrors "nano-banana-pro-edit"
          ((FAL_MODEL_CONFIG.lookup "nano-banana-pro-edit").get (by decide))
          { resolution := some "2K", image_url := some u } = [] := by
        simp [ownErrors, checkAspectRatio, checkResolution, checkOutputFormat,
          checkSafetyTolerance, checkSeed, checkImageUrls, checkMultiImage, truthyStr,
          truthyInt, truthyList, strOf, hu, FAL_MODEL_CONFIG, List.lookup]
      rw [hnil]
      rfl
    · rw [construct_of_mem hm]
      simp only [Except.map, constructOwn_resolution]
      have ht : ((FAL_MODEL_CONFIG.lookup "nano-banana-pro-edit").get (by decide)).type
          = "image-to-image" := by decide
      simp [ht]

/-- Witness of C18: `flux-2-pro-edit` with a resolution in the request. -/
theorem no_resolution_for_image_to_image_witness :
    ∃ payload, constructFalPayload "flux-2-pro-edit" { resolution := some "2K" } = .ok payload ∧
      payload.resolution = none := by
  obtain ⟨payload, h, hnone, _⟩ := no_resolution_for_image_to_image.1 "flux-2-pro-edit"
    ((FAL_MODEL_CONFIG.lookup "flux-2-pro-edit").get (by decide))
    { resolution := some "2K" } (by decide)
  exact ⟨payload, h, hnone (by decide)⟩

end FalImage
